import Mathlib

/-! Verification of `gfxinit.cpp` (initialising of the GRF graphics).

A shallow embedding of the sprite loaders `LoadGrfFile` and `LoadGrfFileIndexed`,
of the blitter selection and switch `SelectNewGRFBlitter` and
`SwitchNewGRFBlitter`, of the checksum functions `check_md5`,
`GraphicsSet::CheckMD5` and `MD5File::CheckMD5`, of the report of
`BaseGraphics::SetSet` and of the loads of `LoadSpriteTables`.

Conventions of the embedding.

* `uint` and `SpriteID` are 32 bit unsigned: increments are taken modulo `2 ^ 32`.
* Constants of headers that are not part of `gfxinit.cpp` (`MAX_SPRITES`, `END`)
  are parameters of the functions that use them.
* A run of a loader is the list of `LoadNextSprite` calls it issued, in order,
  together with the way the run ended.
-/

namespace GfxInit

/-- The fatal errors raised through `usererror` in `gfxinit.cpp`. -/
inductive UserError where
  /-- Message: Base grf is corrupt. -/
  | corrupt_base_grf
  /-- Message: Unsupported compression format. -/
  | unsupported_compression
  /-- Message: Too many sprites. Recompile with higher MAX_SPRITES value or remove
  some custom GRF files. -/
  | too_many_sprites
  /-- Message: Failed to reinitialize video driver. Specify a fixed blitter in the
  config. -/
  | video_reinit_failed
  deriving DecidableEq

/-- How a run of a function ends: it returns a value, it stops in `usererror`,
an `assert` of the function fails, or it reads a table past its last element. -/
inductive Outcome (α : Type) where
  | returned (v : α)
  | usererror (e : UserError)
  | assert_failed
  | out_of_bounds
  deriving DecidableEq

/-- Modelled from the spec: the opened GRF file as the loaders see it through
`GetGRFContainerVersion`, `FioReadByte` and `LoadNextSprite`, which are not part of
`gfxinit.cpp`. The file gives the container version tag (0 for a corrupt file), the
byte that `FioReadByte` yields right after the sprite offsets were read, and the
raw sprite records: `LoadNextSprite` reads one record per call and returns true,
and returns false when the stream has reached end-of-data. -/
structure GrfFile where
  container_ver : Nat
  compression : Nat
  records : List Nat
  deriving DecidableEq

/-- One call `LoadNextSprite(load_index, file_index, sprite_id, container_ver)`.
The field `record` is the raw record that the call read and stored in the sprite
table at `load_index`; it is `none` when the call returned false (end-of-data),
in which case nothing was stored. -/
structure SpriteCall where
  load_index : Nat
  file_index : Int
  sprite_id : Nat
  container_ver : Nat
  record : Option Nat
  deriving DecidableEq

/-- A run of a loader: the `LoadNextSprite` calls in order and the outcome. -/
structure Run (α : Type) where
  calls : List SpriteCall
  result : Outcome α

/-- The run that first issues the call `c` and then goes on as `r`. -/
def Run.after {α : Type} (c : SpriteCall) (r : Run α) : Run α :=
  ⟨c :: r.calls, r.result⟩

/-- The sprite table entries written by a run: the calls that read a record. -/
def Run.writes {α : Type} (r : Run α) : List SpriteCall :=
  r.calls.filter (fun c => c.record.isSome)

/-- The `while (LoadNextSprite(...))` loop of `LoadGrfFile` (lines 68 to 74).
It returns the value of `load_index` at loop exit. -/
def LoadGrfFile.loop (MAX_SPRITES : Nat) (file_index : Int) (container_ver : Nat) :
    List Nat → Nat → Nat → Run Nat
  | [], load_index, sprite_id =>
    ⟨[⟨load_index, file_index, sprite_id, container_ver, none⟩], .returned load_index⟩
  | r :: rest, load_index, sprite_id =>
    let call : SpriteCall := ⟨load_index, file_index, sprite_id, container_ver, some r⟩
    let load_index := (load_index + 1) % 2 ^ 32
    let sprite_id := (sprite_id + 1) % 2 ^ 32
    if load_index ≥ MAX_SPRITES then
      ⟨[call], .usererror .too_many_sprites⟩
    else
      (LoadGrfFile.loop MAX_SPRITES file_index container_ver rest load_index sprite_id).after call

/-- `LoadGrfFile` (lines 50 to 78): load an old fashioned GRF file sequentially
from `load_index`; returns the number of loaded sprites. The argument `f` is the
file opened by `FioOpenFile(file_index, filename, BASESET_DIR)`. The `DEBUG` lines
and `ReadGRFSpriteOffsets`, which only prepare the reading of the records, have no
part in the calls or in the result and are left out. -/
def LoadGrfFile (MAX_SPRITES : Nat) (f : GrfFile) (load_index : Nat) (file_index : Int) :
    Run Nat :=
  let load_index_org := load_index
  let container_ver := f.container_ver
  if container_ver = 0 then ⟨[], .usererror .corrupt_base_grf⟩
  else if container_ver ≥ 2 ∧ f.compression ≠ 0 then
    ⟨[], .usererror .unsupported_compression⟩
  else
    let r := LoadGrfFile.loop MAX_SPRITES file_index container_ver f.records load_index 0
    match r.result with
    | .returned load_index =>
      ⟨r.calls, .returned ((load_index + 2 ^ 32 - load_index_org) % 2 ^ 32)⟩
    | .usererror e => ⟨r.calls, .usererror e⟩
    | .assert_failed => ⟨r.calls, .assert_failed⟩
    | .out_of_bounds => ⟨r.calls, .out_of_bounds⟩

/-- The `do ... while (++start <= end)` loop of `LoadGrfFileIndexed` (lines 108
to 112). It returns the records left in the file and the value of `sprite_id`. -/
def LoadGrfFileIndexed.range (file_index : Int) (container_ver : Nat) (end_ : Nat) :
    List Nat → Nat → Nat → Run (List Nat × Nat)
  | [], start, sprite_id =>
    ⟨[⟨start, file_index, sprite_id, container_ver, none⟩], .assert_failed⟩
  | r :: rest, start, sprite_id =>
    let call : SpriteCall := ⟨start, file_index, sprite_id, container_ver, some r⟩
    let sprite_id := (sprite_id + 1) % 2 ^ 32
    let start := (start + 1) % 2 ^ 32
    if start ≤ end_ then
      (LoadGrfFileIndexed.range file_index container_ver end_ rest start sprite_id).after call
    else
      ⟨[call], .returned (rest, sprite_id)⟩

/-- The `while ((start = *index_tbl++) != END)` loop of `LoadGrfFileIndexed`
(lines 105 to 113) over the array `index_tbl`. -/
def LoadGrfFileIndexed.loop (END : Nat) (file_index : Int) (container_ver : Nat) :
    List Nat → List Nat → Nat → Run Unit
  | [], _, _ => ⟨[], .out_of_bounds⟩
  | [start], _, _ => if start = END then ⟨[], .returned ()⟩ else ⟨[], .out_of_bounds⟩
  | start :: end_ :: index_tbl, records, sprite_id =>
    if start = END then ⟨[], .returned ()⟩
    else
      let r := LoadGrfFileIndexed.range file_index container_ver end_ records start sprite_id
      match r.result with
      | .returned (records, sprite_id) =>
        let s := LoadGrfFileIndexed.loop END file_index container_ver index_tbl records sprite_id
        ⟨r.calls ++ s.calls, s.result⟩
      | .usererror e => ⟨r.calls, .usererror e⟩
      | .assert_failed => ⟨r.calls, .assert_failed⟩
      | .out_of_bounds => ⟨r.calls, .out_of_bounds⟩

/-- `LoadGrfFileIndexed` (lines 87 to 114): load an old fashioned GRF file to
replace already loaded sprites, at the slots given by `index_tbl`. The entries of
`index_tbl` are `SpriteID` values (32 bit unsigned). The `assert` of line 110 is
taken as checked. -/
def LoadGrfFileIndexed (END : Nat) (f : GrfFile) (index_tbl : List Nat) (file_index : Int) :
    Run Unit :=
  let container_ver := f.container_ver
  if container_ver = 0 then ⟨[], .usererror .corrupt_base_grf⟩
  else if container_ver ≥ 2 ∧ f.compression ≠ 0 then
    ⟨[], .usererror .unsupported_compression⟩
  else
    LoadGrfFileIndexed.loop END file_index container_ver index_tbl f.records 0

/-- The array of a range table: the pairs `(start, end)` in order, followed by the
`END` sentinel (the layout of `_landscape_spriteindexes_arctic` and its siblings). -/
def rangeTable (END : Nat) (ranges : List (Nat × Nat)) : List Nat :=
  ranges.flatMap (fun r => [r.1, r.2]) ++ [END]

/-- The slots named by a list of ranges: `s1..e1, s2..e2, ...` in table order. -/
def rangeSlots (ranges : List (Nat × Nat)) : List Nat :=
  ranges.flatMap (fun r => List.range' r.1 (r.2 - r.1 + 1))

/-- The number of slots named by a list of ranges: the sum of `e - s + 1`. -/
def rangeTotal (ranges : List (Nat × Nat)) : Nat :=
  (ranges.map (fun r => r.2 - r.1 + 1)).sum


/-- The calls that place `records` at `slots`, one record per slot in order: the
record number `i` of `records` goes to slot number `i` of `slots` with the file-local
counter `j + i` (a 32 bit counter); the shorter list decides the number of calls. -/
def placedCalls (file_index : Int) (container_ver : Nat) (j : Nat) (slots records : List Nat) :
    List SpriteCall :=
  ((List.zip slots records).enumFrom j).map
    (fun p => ⟨p.2.1, file_index, p.1 % 2 ^ 32, container_ver, some p.2.2⟩)

/-- An entry of the table `replacement_blitters` in `SelectNewGRFBlitter`. -/
structure ReplacementBlitter where
  name : String
  /-- Animation: 0 no support, 1 do support, 2 both. -/
  animation : Nat
  /-- Depth of the base set: 0 for 8bpp, 1 for 32bpp, 2 for both. -/
  base_depth : Nat
  /-- Depth of the NewGRFs: 0 for 8bpp, 1 for 32bpp, 2 for both. -/
  grf_depth : Nat
  deriving DecidableEq

/-- The table `replacement_blitters` (lines 263 to 278); the flag `WITH_SSE` says
whether the four entries under `#ifdef WITH_SSE` are compiled in. -/
def replacement_blitters (WITH_SSE : Bool) : List ReplacementBlitter :=
  (if WITH_SSE then
    [⟨"32bpp-sse4", 0, 1, 2⟩,
     ⟨"32bpp-ssse3", 0, 1, 2⟩,
     ⟨"32bpp-sse2", 0, 1, 2⟩,
     ⟨"32bpp-sse4-anim", 1, 1, 2⟩]
   else []) ++
  [⟨"8bpp-optimized", 2, 0, 0⟩,
   ⟨"32bpp-optimized", 0, 2, 2⟩,
   ⟨"32bpp-anim", 1, 2, 2⟩]

/-- The scan `for (uint i = 0; ; i++)` of `SelectNewGRFBlitter` (lines 282 to 291)
over the entries from index `i` on. The empty list stands for `i` having reached
`lengthof(replacement_blitters)`, where the assertion of line 284 fails. -/
def SelectNewGRFBlitter.scan (animation_wanted base_wants_32bpp grf_wants_32bpp : Bool) :
    List ReplacementBlitter → Outcome String
  | [] => .assert_failed
  | b :: rest =>
    if b.animation = (if animation_wanted then 0 else 1) then
      SelectNewGRFBlitter.scan animation_wanted base_wants_32bpp grf_wants_32bpp rest
    else if b.base_depth = (if base_wants_32bpp then 0 else 1) then
      SelectNewGRFBlitter.scan animation_wanted base_wants_32bpp grf_wants_32bpp rest
    else if b.grf_depth = (if grf_wants_32bpp then 0 else 1) then
      SelectNewGRFBlitter.scan animation_wanted base_wants_32bpp grf_wants_32bpp rest
    else .returned b.name

/-- The search of `SelectNewGRFBlitter` (lines 262 to 291) as a function of the three
locals `base_wants_32bpp`, `grf_wants_32bpp` (lines 247 to 260) and
`animation_wanted` (line 280). -/
def SelectNewGRFBlitter (WITH_SSE : Bool)
    (base_wants_32bpp grf_wants_32bpp animation_wanted : Bool) : Outcome String :=
  SelectNewGRFBlitter.scan animation_wanted base_wants_32bpp grf_wants_32bpp
    (replacement_blitters WITH_SSE)

/-- Modelled from the spec: the blitter registry and the video driver as
`SwitchNewGRFBlitter` sees them through `Blitter::select`, `GetScreenDepth` and
`VideoDriver::AfterBlitterChange`, which are not part of `gfxinit.cpp`.
`Blitter::select` fails (returns NULL, the active blitter stays) only if it cannot
find a blitter by the given name (`available`), else a blitter of that name becomes
the active one. `screen_depth` is the screen depth of the blitter of a given name.
The result of `AfterBlitterChange` may depend on the name of the active blitter and
on the number of calls made before in the same run. -/
structure BlitterEnv where
  available : String → Bool
  screen_depth : String → Nat
  after_blitter_change : String → Nat → Bool

/-- The blitter state: `Blitter::autodetected` and the name of the active blitter
(`Blitter::get_name()`). -/
structure BlitterState where
  autodetected : Bool
  active : String
  deriving DecidableEq

/-- The calls that `SwitchNewGRFBlitter` makes on the registry and the driver. -/
inductive BlitterCall where
  | select (name : String)
  | AfterBlitterChange
  deriving DecidableEq

/-- A run of `SwitchNewGRFBlitter`: the calls in order, the name of the active
blitter at the end, and the outcome. -/
structure SwitchRun where
  calls : List BlitterCall
  active : String
  result : Outcome Bool
  deriving DecidableEq

/-- `SwitchNewGRFBlitter` (lines 298 to 326): check the blitter needed by the NewGRF
config and switch if needed; returns false when nothing changed, true otherwise.
Blitters are told apart by name, as `strcmp (repl_blitter, cur_blitter)` does. The
three flags are the inputs of `SelectNewGRFBlitter`; the `assert` of line 315 is
taken as checked. -/
def SwitchNewGRFBlitter (env : BlitterEnv) (WITH_SSE : Bool) (st : BlitterState)
    (base_wants_32bpp grf_wants_32bpp animation_wanted : Bool) : SwitchRun :=
  if !st.autodetected then ⟨[], st.active, .returned false⟩
  else if env.screen_depth st.active = 0 then ⟨[], st.active, .returned false⟩
  else
    match SelectNewGRFBlitter WITH_SSE base_wants_32bpp grf_wants_32bpp animation_wanted with
    | .returned repl_blitter =>
      let cur_blitter := st.active
      if repl_blitter = cur_blitter then ⟨[], st.active, .returned false⟩
      else if !env.available repl_blitter then
        ⟨[.select repl_blitter], cur_blitter, .assert_failed⟩
      else if !env.after_blitter_change repl_blitter 0 then
        if !env.available cur_blitter then
          ⟨[.select repl_blitter, .AfterBlitterChange, .select cur_blitter],
            repl_blitter, .usererror .video_reinit_failed⟩
        else if !env.after_blitter_change cur_blitter 1 then
          ⟨[.select repl_blitter, .AfterBlitterChange, .select cur_blitter,
            .AfterBlitterChange], cur_blitter, .usererror .video_reinit_failed⟩
        else
          ⟨[.select repl_blitter, .AfterBlitterChange, .select cur_blitter,
            .AfterBlitterChange], cur_blitter, .returned true⟩
      else ⟨[.select repl_blitter, .AfterBlitterChange], repl_blitter, .returned true⟩
    | .usererror e => ⟨[], st.active, .usererror e⟩
    | .assert_failed => ⟨[], st.active, .assert_failed⟩
    | .out_of_bounds => ⟨[], st.active, .out_of_bounds⟩

/-- An environment for examples: every blitter is found by name, the screen depth
is 32, and the video driver adapts to `8bpp-optimized` only. -/
def rollbackEnv : BlitterEnv :=
  ⟨fun _ => true, fun _ => 32, fun name _ => name == "8bpp-optimized"⟩

/-- An environment for examples: every blitter is found by name, the screen depth
is 32, and the video driver adapts to every blitter. -/
def plainEnv : BlitterEnv :=
  ⟨fun _ => true, fun _ => 32, fun _ _ => true⟩

/-- The constants of `newgrf_config.h` and `gfx_type.h` that `SelectNewGRFBlitter`
uses; they are not defined in `gfxinit.cpp` and are taken as parameters.
`GCF_INIT_ONLY` is a bit number of `GRFConfig::flags`, `GRFP_BLT_32BPP` is a mask
on `GRFConfig::palette`. -/
structure NewGRFConstants where
  S8BPP_NONE : Nat
  GCS_DISABLED : Nat
  GCS_NOT_FOUND : Nat
  GCF_INIT_ONLY : Nat
  GRFP_BLT_32BPP : Nat

/-- The fields of a `GRFConfig` that `SelectNewGRFBlitter` reads; the linked list
`_grfconfig` is the list of its elements in `next` order. -/
structure GRFConfig where
  status : Nat
  flags : Nat
  palette : Nat
  deriving DecidableEq

/-- Modelled from the spec: `HasBit(x, y)` of `core/bitmath_func.hpp` tells whether
bit number `y` of `x` is set. -/
def HasBit (x y : Nat) : Bool :=
  x.testBit y

/-- The loop over `_grfconfig` of `SelectNewGRFBlitter` (lines 252 to 259): the
value of `grf_wants_32bpp` after the loop. -/
def SelectNewGRFBlitter.grf_loop (k : NewGRFConstants) : List GRFConfig → Bool
  | [] => false
  | c :: next =>
    if c.status = k.GCS_DISABLED ∨ c.status = k.GCS_NOT_FOUND ∨
        HasBit c.flags k.GCF_INIT_ONLY = true then
      SelectNewGRFBlitter.grf_loop k next
    else if c.palette &&& k.GRFP_BLT_32BPP ≠ 0 then true
    else SelectNewGRFBlitter.grf_loop k next

/-- The local `grf_wants_32bpp` of `SelectNewGRFBlitter` (lines 248 to 260) as a
function of `_support8bpp` and `_grfconfig`. -/
def SelectNewGRFBlitter.grf_wants_32bpp (k : NewGRFConstants) (support8bpp : Nat)
    (grfconfig : List GRFConfig) : Bool :=
  if support8bpp = k.S8BPP_NONE then true
  else SelectNewGRFBlitter.grf_loop k grfconfig

/-- Modelled from the spec: the number of bytes that `fread (buffer, 1, request, f)`
returns when `avail` bytes are left in the stream. A read returns 0 only at
end-of-stream (or for an empty request) and otherwise between 1 and
`min request avail` bytes; `split call` is the number of bytes that read number
`call` would like to deliver, so that every way of splitting the reads is some
`split`. -/
def fread_len (split : Nat → Nat) (call avail request : Nat) : Nat :=
  if min request avail = 0 then 0 else max 1 (min (split call) (min request avail))

/-- The `while (size != 0)` loop of `check_md5` (lines 382 to 387) on the bytes
`stream` left in the file: the chunks passed to `checksum.Append`, in order. The
buffer has `sizeof(buffer) = 1024` bytes. -/
def check_md5.loop (split : Nat → Nat) (call : Nat) (stream : List Nat) (size : Nat) :
    List (List Nat) :=
  if size = 0 then []
  else
    let len := fread_len split call stream.length (min size 1024)
    if len = 0 then []
    else stream.take len :: check_md5.loop split (call + 1) (stream.drop len) (size - len)
termination_by size
decreasing_by omega

/-- `check_md5` (lines 377 to 394): calculate and check the MD5 hash of the supplied
file, using only `size` bytes from it. Modelled from the spec for the class `Md5` of
`3rdparty/md5`, which is not part of `gfxinit.cpp`: `Finish` yields the digest `md5`
of the bytes passed to `Append` so far, in order. The comparison `memcmp` is on
`sizeof(hash) = 16` bytes. -/
def check_md5 (md5 : List Nat → List Nat) (split : Nat → Nat) (stream : List Nat)
    (hash : List Nat) (size : Nat) : Bool :=
  let digest := md5 (check_md5.loop split 0 stream size).flatten
  decide (hash.take 16 = digest.take 16)

/-- The result of a checksum check, `MD5File::ChecksumResult`. -/
inductive ChecksumResult where
  | CR_MATCH
  | CR_MISMATCH
  | CR_NO_FILE
  deriving DecidableEq

/-- The fields of an `MD5File` that `gfxinit.cpp` reads. -/
structure MD5File where
  filename : String
  hash : List Nat
  missing_warning : String
  deriving DecidableEq

/-- The fields of a `GraphicsSet` that `BaseGraphics::SetSet` reads: the name, the
`NUM_FILES` files in the order of `GraphicsSet::file_names`, and the value of
`GetNumInvalid()`. -/
structure GraphicsSet where
  name : String
  files : List MD5File
  num_invalid : Nat

/-- `GraphicsSet::CheckMD5` (lines 404 to 416). Modelled from the spec for
`FioFOpenFile` and `GRFGetSizeOfDataSection`, which are not part of `gfxinit.cpp`:
`fs filename` is the content of the file when it can be opened (its length is the
size that `FioFOpenFile` reports), and `GRFGetSizeOfDataSection` is the data section
size that the file declares. After `fseek (f, 0, SEEK_SET)` the reads start at
offset 0 of the content. -/
def GraphicsSet.CheckMD5 (md5 : List Nat → List Nat)
    (GRFGetSizeOfDataSection : List Nat → Nat) (fs : String → Option (List Nat))
    (split : Nat → Nat) (file : MD5File) : ChecksumResult :=
  match fs file.filename with
  | none => .CR_NO_FILE
  | some content =>
    let size := min content.length (GRFGetSizeOfDataSection content)
    if check_md5 md5 split content file.hash size then .CR_MATCH else .CR_MISMATCH

/-- `MD5File::CheckMD5` (lines 426 to 434), with `fs` as in `GraphicsSet.CheckMD5`. -/
def MD5File.CheckMD5 (md5 : List Nat → List Nat) (fs : String → Option (List Nat))
    (split : Nat → Nat) (this : MD5File) : ChecksumResult :=
  match fs this.filename with
  | none => .CR_NO_FILE
  | some content =>
    let size := content.length
    if check_md5 md5 split content this.hash size then .CR_MATCH else .CR_MISMATCH

/-- A digest for examples: the first 16 bytes of the content. -/
def toyDigest (bytes : List Nat) : List Nat :=
  bytes.take 16

/-- A data section size for examples: the value of the first byte of the file. -/
def firstByteSize (content : List Nat) : Nat :=
  content.headD 0

/-- A file system for examples: `a.grf` and `b.grf` declare a data section of 3
bytes and agree on it, `c.grf` has other data, every other file is missing. -/
def exampleFiles (filename : String) : Option (List Nat) :=
  if filename = "a.grf" then some [3, 1, 2, 9, 9]
  else if filename = "b.grf" then some [3, 1, 2, 7]
  else if filename = "c.grf" then some [3, 1, 4]
  else none

/-- Modelled from the spec: `sstring<N>::append_fmt`, which is not part of
`gfxinit.cpp`, appends the formatted text to the buffer of `capacity` bytes and
keeps what fits, at most `capacity - 1` characters before the terminator. A
character of a name counts as one byte. -/
def sstring_append (capacity : Nat) (buffer text : String) : String :=
  String.mk ((buffer ++ text).data.take (capacity - 1))

/-- The `for` loop of `BaseGraphics::SetSet` (lines 133 to 136) over the files of
the used set from file number `i` on: the content of `error_msg` after the loop. -/
def BaseGraphics.SetSet.loop (md5 : List Nat → List Nat)
    (GRFGetSizeOfDataSection : List Nat → Nat) (fs : String → Option (List Nat))
    (split : Nat → Nat) : List MD5File → String → String
  | [], error_msg => error_msg
  | file :: files, error_msg =>
    let res := GraphicsSet.CheckMD5 md5 GRFGetSizeOfDataSection fs split file
    let error_msg :=
      if res ≠ .CR_MATCH then
        sstring_append 1024 error_msg
          ("\t" ++ file.filename ++ " is " ++
            (if res = .CR_MISMATCH then "corrupt" else "missing") ++
            " (" ++ file.missing_warning ++ ")\n")
      else error_msg
    BaseGraphics.SetSet.loop md5 GRFGetSizeOfDataSection fs split files error_msg

/-- `BaseGraphics::SetSet` (lines 121 to 141). `base_SetSet` is the result of
`BaseMedia<GraphicsSet>::SetSet (name)` and `used_set` the used set after it (none
for NULL). The result is the return value together with the two string arguments of
`ShowInfoF` (the name of the set and the file list `error_msg`) when the report is
shown. -/
def BaseGraphics.SetSet (md5 : List Nat → List Nat)
    (GRFGetSizeOfDataSection : List Nat → Nat) (fs : String → Option (List Nat))
    (split : Nat → Nat) (base_SetSet : Bool) (used_set : Option GraphicsSet) :
    Bool × Option (String × String) :=
  if !base_SetSet then (false, none)
  else
    match used_set with
    | none => (true, none)
    | some used_set =>
      if used_set.num_invalid ≠ 0 then
        (true, some (used_set.name,
          BaseGraphics.SetSet.loop md5 GRFGetSizeOfDataSection fs split used_set.files ""))
      else (true, none)

/-- The label of a file in the report, in the words of the spec. -/
def reportLabel (res : ChecksumResult) : String :=
  if res = .CR_MISMATCH then "corrupt" else "missing"

/-- The line of the report for one file and its check result, in the words of the
spec: a tab, the file name, the label, and the hint in brackets. -/
def reportLine (file : MD5File) (res : ChecksumResult) : String :=
  "\t" ++ file.filename ++ " is " ++ reportLabel res ++ " (" ++ file.missing_warning ++ ")\n"

/-- The lines of the report in the words of the spec: one line for each file whose
check result is not a match, in the order of the files, and none for the others. -/
def reportLines (check : MD5File → ChecksumResult) (files : List MD5File) : List String :=
  (files.filter (fun f => decide (check f ≠ .CR_MATCH))).map (fun f => reportLine f (check f))

/-- A graphics set for examples with six files: `a.grf` and `b.grf` match, `c.grf`
is corrupt, `d.grf` is missing. -/
def exampleSet : GraphicsSet :=
  ⟨"example",
   [⟨"a.grf", [3, 1, 2], "hint 1"⟩, ⟨"c.grf", [3, 1, 2], "hint 2"⟩,
    ⟨"b.grf", [3, 1, 2], "hint 3"⟩, ⟨"a.grf", [3, 1, 2], "hint 4"⟩,
    ⟨"d.grf", [3, 1, 2], "hint 5"⟩, ⟨"b.grf", [3, 1, 2], "hint 6"⟩],
   2⟩

/-- `GraphicsSet::file_names` (lines 437 and 438): the names corresponding to the
`GraphicsFileType`. -/
def GraphicsSet.file_names : List String :=
  ["base", "logos", "arctic", "tropical", "toyland", "extra"]

/-- Modelled from the spec: the enum `GraphicsFileType` is not part of `gfxinit.cpp`;
its values index `GraphicsSet::file_names`, so `GFT_BASE` is the file of name base. -/
def GFT_BASE : Nat := 0

/-- Modelled from the spec: the value of `GraphicsFileType` for the file of name
logos in `GraphicsSet::file_names`. -/
def GFT_LOGOS : Nat := 1

/-- Modelled from the spec: the value of `GraphicsFileType` for the file of name
arctic in `GraphicsSet::file_names`; tropical and toyland follow it. -/
def GFT_ARCTIC : Nat := 2

/-- Modelled from the spec: the value of `GraphicsFileType` for the file of name
extra in `GraphicsSet::file_names`. -/
def GFT_EXTRA : Nat := 5

/-- Modelled from the spec: the landscape type of the temperate climate; arctic is
1, tropic is 2 and toyland is 3. -/
def LT_TEMPERATE : Nat := 0

/-- `_landscape_spriteindexes` (lines 37 to 41): the range tables of the three
climates other than temperate; the tables themselves come from
`table/landscape_sprite.h` and are parameters. -/
def _landscape_spriteindexes (_landscape_spriteindexes_arctic
    _landscape_spriteindexes_tropic _landscape_spriteindexes_toyland : List Nat) :
    List (List Nat) :=
  [_landscape_spriteindexes_arctic, _landscape_spriteindexes_tropic,
   _landscape_spriteindexes_toyland]

/-- The loads that `LoadSpriteTables` starts. The files are named by their number in
`used_set->files`. `LoadNewGRF` stands for the load of the pseudo NewGRF `master`
made from the file `master_file`. -/
inductive LoadOp where
  | LoadGrfFile (file : Nat) (load_index : Nat) (file_index : Nat)
  | LoadGrfFileIndexed (file : Nat) (index_tbl : List Nat) (file_index : Nat)
  | LoadNewGRF (master_file : Nat) (load_index : Nat) (file_index : Nat)
  deriving DecidableEq

/-- A run of `LoadSpriteTables`: the loads started, in order, and the outcome. -/
structure TablesRun where
  ops : List LoadOp
  result : Outcome Unit
  deriving DecidableEq

/-- One load of `LoadSpriteTables` followed by the rest of the function: `exec op`
is the way the load `op` ends, and the rest runs only if the load returns. -/
def LoadSpriteTables.step (exec : LoadOp → Outcome Unit) (op : LoadOp) (rest : TablesRun) :
    TablesRun :=
  match exec op with
  | .returned _ => ⟨op :: rest.ops, rest.result⟩
  | .usererror e => ⟨[op], .usererror e⟩
  | .assert_failed => ⟨[op], .assert_failed⟩
  | .out_of_bounds => ⟨[op], .out_of_bounds⟩

/-- `LoadSpriteTables` (lines 169 to 232) as the sequence of its loads. The
constants `FIRST_GRF_SLOT` and `SPR_NEWGRFS_BASE` are parameters; `landscape` is
`_settings_game.game_creation.landscape`. The settings of `_palette_remap_grf`, the
call of `InitializeUnicodeGlyphMap` and the set-up of the `GRFConfig` of the pseudo
NewGRF start no load and are left out. -/
def LoadSpriteTables (exec : LoadOp → Outcome Unit) (FIRST_GRF_SLOT SPR_NEWGRFS_BASE : Nat)
    (_landscape_spriteindexes_arctic _landscape_spriteindexes_tropic
      _landscape_spriteindexes_toyland : List Nat) (landscape : Nat) : TablesRun :=
  let i := FIRST_GRF_SLOT
  LoadSpriteTables.step exec (.LoadGrfFile GFT_BASE 0 i) <|
  let i := (i + 1) % 2 ^ 32
  LoadSpriteTables.step exec (.LoadGrfFile GFT_LOGOS 4793 i) <|
  let i := (i + 1) % 2 ^ 32
  if landscape ≠ LT_TEMPERATE then
    match (_landscape_spriteindexes _landscape_spriteindexes_arctic
      _landscape_spriteindexes_tropic _landscape_spriteindexes_toyland)[landscape - 1]? with
    | none => ⟨[], .out_of_bounds⟩
    | some index_tbl =>
      LoadSpriteTables.step exec
        (.LoadGrfFileIndexed (GFT_ARCTIC + landscape - 1) index_tbl i) <|
      let i := (i + 1) % 2 ^ 32
      LoadSpriteTables.step exec (.LoadNewGRF GFT_EXTRA SPR_NEWGRFS_BASE i) ⟨[], .returned ()⟩
  else
    LoadSpriteTables.step exec (.LoadNewGRF GFT_EXTRA SPR_NEWGRFS_BASE i) ⟨[], .returned ()⟩

/-! ## Sequential loading -/

/-- The loop of `LoadGrfFile` on a file whose records all fit below `MAX_SPRITES`:
started at index `K + j` with counter `j`, it reads every record and then the
end-of-data. -/
theorem LoadGrfFile.loop_fits (MAX_SPRITES : Nat) (file_index : Int) (container_ver K : Nat)
    (hMAX : MAX_SPRITES < 2 ^ 32) :
    ∀ (records : List Nat) (j : Nat), K + j + records.length < MAX_SPRITES →
      LoadGrfFile.loop MAX_SPRITES file_index container_ver records (K + j) j =
        ⟨(records.enumFrom j).map
            (fun p => ⟨K + p.1, file_index, p.1, container_ver, some p.2⟩) ++
          [⟨K + (j + records.length), file_index, j + records.length, container_ver, none⟩],
         .returned (K + (j + records.length))⟩
  | [], j, _ => by simp [LoadGrfFile.loop]
  | r :: rest, j, h => by
    have hlen : (r :: rest).length = rest.length + 1 := rfl
    rw [hlen] at h
    have h1 : (K + j + 1) % 2 ^ 32 = K + (j + 1) := by omega
    have h2 : (j + 1) % 2 ^ 32 = j + 1 := by omega
    have h3 : ¬ (K + (j + 1) ≥ MAX_SPRITES) := by omega
    have ih := LoadGrfFile.loop_fits MAX_SPRITES file_index container_ver K hMAX rest (j + 1)
      (by omega)
    simp only [LoadGrfFile.loop, h1, h2, h3, if_false, ih, Run.after, hlen,
      List.enumFrom_cons, List.map_cons, List.cons_append]
    have e1 : j + 1 + rest.length = j + (rest.length + 1) := by omega
    rw [e1]

/-- C1. Sequential mode: for a file with an accepted header and N records followed
by end-of-data, with K + N below MAX_SPRITES, LoadGrfFile reads record j (for j =
0, ..., N-1, in this order) with target index K + j, file-local counter j and the
given file slot, then gets end-of-data at index K + N; the sprite table entries
written are exactly those N reads, and the function returns N. -/
theorem LoadGrfFile_sequential (MAX_SPRITES : Nat) (f : GrfFile) (K : Nat) (file_index : Int)
    (hver : f.container_ver ≠ 0) (hcomp : 2 ≤ f.container_ver → f.compression = 0)
    (hMAX : MAX_SPRITES < 2 ^ 32) (hfit : K + f.records.length < MAX_SPRITES) :
    (LoadGrfFile MAX_SPRITES f K file_index).result = .returned f.records.length ∧
    (LoadGrfFile MAX_SPRITES f K file_index).calls =
      f.records.enum.map (fun p => ⟨K + p.1, file_index, p.1, f.container_ver, some p.2⟩) ++
        [⟨K + f.records.length, file_index, f.records.length, f.container_ver, none⟩] ∧
    (LoadGrfFile MAX_SPRITES f K file_index).writes =
      f.records.enum.map (fun p => ⟨K + p.1, file_index, p.1, f.container_ver, some p.2⟩) := by
  have hc : ¬ (f.container_ver ≥ 2 ∧ f.compression ≠ 0) := fun h => h.2 (hcomp h.1)
  have hl := LoadGrfFile.loop_fits MAX_SPRITES file_index f.container_ver K hMAX f.records 0
    (by omega)
  simp only [Nat.add_zero, Nat.zero_add] at hl
  have hr : (K + f.records.length + 2 ^ 32 - K) % 2 ^ 32 = f.records.length := by omega
  refine ⟨?_, ?_, ?_⟩
  · simp only [LoadGrfFile, hver, hc, if_false, hl, hr]
  · simp only [LoadGrfFile, hver, hc, if_false, hl]
    rfl
  · simp only [LoadGrfFile, hver, hc, if_false, hl, Run.writes, List.filter_append]
    rw [List.filter_eq_self.2]
    · simp [List.enum]
    · intro c hc'
      simp only [List.mem_map] at hc'
      obtain ⟨p, _, rfl⟩ := hc'
      rfl

/-- Instance of C1: three records loaded from index 4793 into file slot 1. -/
theorem LoadGrfFile_sequential_witness :
    (LoadGrfFile 16777216 ⟨2, 0, [7, 8, 9]⟩ 4793 1).result = .returned 3 ∧
    (LoadGrfFile 16777216 ⟨2, 0, [7, 8, 9]⟩ 4793 1).calls =
      [⟨4793, 1, 0, 2, some 7⟩, ⟨4794, 1, 1, 2, some 8⟩, ⟨4795, 1, 2, 2, some 9⟩,
       ⟨4796, 1, 3, 2, none⟩] ∧
    (LoadGrfFile 16777216 ⟨2, 0, [7, 8, 9]⟩ 4793 1).writes =
      [⟨4793, 1, 0, 2, some 7⟩, ⟨4794, 1, 1, 2, some 8⟩, ⟨4795, 1, 2, 2, some 9⟩] :=
  LoadGrfFile_sequential 16777216 ⟨2, 0, [7, 8, 9]⟩ 4793 1 (by decide) (by decide) (by decide)
    (by decide)


/-- The loop of `LoadGrfFile` ends by returning or in the capacity error. -/
theorem LoadGrfFile.loop_result (MAX_SPRITES : Nat) (file_index : Int) (container_ver : Nat) :
    ∀ (records : List Nat) (load_index sprite_id : Nat),
      (∃ n, (LoadGrfFile.loop MAX_SPRITES file_index container_ver records load_index
          sprite_id).result = .returned n) ∨
      (LoadGrfFile.loop MAX_SPRITES file_index container_ver records load_index
          sprite_id).result = .usererror .too_many_sprites
  | [], load_index, _ => Or.inl ⟨load_index, rfl⟩
  | r :: rest, load_index, sprite_id => by
    simp only [LoadGrfFile.loop]
    split
    · exact Or.inr rfl
    · exact LoadGrfFile.loop_result MAX_SPRITES file_index container_ver rest _ _

/-- The first call of the loop of `LoadGrfFile` reads at the start index. -/
theorem LoadGrfFile.loop_head (MAX_SPRITES : Nat) (file_index : Int) (container_ver : Nat)
    (records : List Nat) (load_index sprite_id : Nat) :
    (LoadGrfFile.loop MAX_SPRITES file_index container_ver records load_index
      sprite_id).calls.head? =
      some ⟨load_index, file_index, sprite_id, container_ver, records.head?⟩ := by
  cases records with
  | nil => rfl
  | cons r rest =>
    simp only [LoadGrfFile.loop]
    split <;> rfl

/-- The loop of `LoadGrfFile` on a file with enough records to reach `MAX_SPRITES`:
it reads the records up to index `MAX_SPRITES - 1` and stops in the error. -/
theorem LoadGrfFile.loop_overflow (MAX_SPRITES : Nat) (file_index : Int)
    (container_ver K : Nat) (hMAX : MAX_SPRITES < 2 ^ 32) :
    ∀ (records : List Nat) (j : Nat), K + j < MAX_SPRITES →
      MAX_SPRITES ≤ K + j + records.length →
      LoadGrfFile.loop MAX_SPRITES file_index container_ver records (K + j) j =
        ⟨((records.take (MAX_SPRITES - (K + j))).enumFrom j).map
            (fun p => ⟨K + p.1, file_index, p.1, container_ver, some p.2⟩),
         .usererror .too_many_sprites⟩
  | [], j, h, h2 => by simp at h2; omega
  | r :: rest, j, h, h2 => by
    have hlen : (r :: rest).length = rest.length + 1 := rfl
    rw [hlen] at h2
    have h1 : (K + j + 1) % 2 ^ 32 = K + (j + 1) := by omega
    have h2m : (j + 1) % 2 ^ 32 = j + 1 := by omega
    obtain ⟨d, hd⟩ : ∃ d, MAX_SPRITES - (K + j) = d + 1 := ⟨MAX_SPRITES - (K + j) - 1, by omega⟩
    by_cases h3 : K + (j + 1) ≥ MAX_SPRITES
    · have hd0 : d = 0 := by omega
      subst hd0
      simp only [LoadGrfFile.loop, h1, h2m, h3, if_true, hd, List.take_succ_cons,
        List.take_zero, List.enumFrom_cons, List.enumFrom_nil, List.map_cons, List.map_nil]
    · have ih := LoadGrfFile.loop_overflow MAX_SPRITES file_index container_ver K hMAX rest
        (j + 1) (by omega) (by omega)
      have hd1 : MAX_SPRITES - (K + (j + 1)) = d := by omega
      simp only [LoadGrfFile.loop, h1, h2m, h3, if_false, ih, Run.after, hd, hd1,
        List.take_succ_cons, List.enumFrom_cons, List.map_cons]


/-! ## Indexed loading -/

/-- The inner loop of `LoadGrfFileIndexed` ends in the assertion or returns. -/
theorem LoadGrfFileIndexed.range_result (file_index : Int) (container_ver end_ : Nat) :
    ∀ (records : List Nat) (start sprite_id : Nat),
      (LoadGrfFileIndexed.range file_index container_ver end_ records start
          sprite_id).result = .assert_failed ∨
      (∃ v, (LoadGrfFileIndexed.range file_index container_ver end_ records start
          sprite_id).result = .returned v)
  | [], _, _ => Or.inl rfl
  | r :: rest, start, sprite_id => by
    simp only [LoadGrfFileIndexed.range]
    split
    · exact LoadGrfFileIndexed.range_result file_index container_ver end_ rest _ _
    · exact Or.inr ⟨_, rfl⟩

/-- The first call of the inner loop of `LoadGrfFileIndexed` reads at `start`. -/
theorem LoadGrfFileIndexed.range_head (file_index : Int) (container_ver end_ : Nat)
    (records : List Nat) (start sprite_id : Nat) :
    (LoadGrfFileIndexed.range file_index container_ver end_ records start
      sprite_id).calls.head? =
      some ⟨start, file_index, sprite_id, container_ver, records.head?⟩ := by
  cases records with
  | nil => rfl
  | cons r rest =>
    simp only [LoadGrfFileIndexed.range]
    split <;> rfl

/-- The table loop of `LoadGrfFileIndexed` never ends in a user error. -/
theorem LoadGrfFileIndexed.loop_no_usererror (END : Nat) (file_index : Int)
    (container_ver : Nat) (index_tbl records : List Nat) (sprite_id : Nat) (e : UserError) :
    (LoadGrfFileIndexed.loop END file_index container_ver index_tbl records
      sprite_id).result ≠ .usererror e := by
  induction index_tbl, records, sprite_id using LoadGrfFileIndexed.loop.induct END file_index container_ver with
  | case5 start end_ index_tbl records sprite_id h r records_1 sprite_id_1 hr ih =>
    simp only [LoadGrfFileIndexed.loop, h, if_false]
    have hr1 : (LoadGrfFileIndexed.range file_index container_ver end_ records start
      sprite_id).result = .returned (records_1, sprite_id_1) := hr
    rw [hr1]
    exact ih
  | case6 start end_ index_tbl records sprite_id h r e1 hr =>
    have hr1 := LoadGrfFileIndexed.range_result file_index container_ver end_ records start
      sprite_id
    have hr2 : (LoadGrfFileIndexed.range file_index container_ver end_ records start
      sprite_id).result = .usererror e1 := hr
    rw [hr2] at hr1
    simp at hr1
  | case7 start end_ index_tbl records sprite_id h r hr =>
    simp only [LoadGrfFileIndexed.loop, h, if_false]
    have hr1 : (LoadGrfFileIndexed.range file_index container_ver end_ records start
      sprite_id).result = .assert_failed := hr
    rw [hr1]
    simp
  | case8 start end_ index_tbl records sprite_id h r hr =>
    simp only [LoadGrfFileIndexed.loop, h, if_false]
    have hr1 : (LoadGrfFileIndexed.range file_index container_ver end_ records start
      sprite_id).result = .out_of_bounds := hr
    rw [hr1]
    simp
  | _ => simp_all [LoadGrfFileIndexed.loop]


theorem placedCalls_nil (file_index : Int) (container_ver j : Nat) (records : List Nat) :
    placedCalls file_index container_ver j [] records = [] := by
  simp [placedCalls]

theorem placedCalls_cons (file_index : Int) (container_ver j slot r : Nat)
    (slots records : List Nat) :
    placedCalls file_index container_ver j (slot :: slots) (r :: records) =
      ⟨slot, file_index, j % 2 ^ 32, container_ver, some r⟩ ::
        placedCalls file_index container_ver (j + 1) slots records := by
  simp [placedCalls, List.enumFrom_cons]

theorem placedCalls_append (file_index : Int) (container_ver : Nat) (b : List Nat) :
    ∀ (a records : List Nat) (j : Nat), a.length ≤ records.length →
      placedCalls file_index container_ver j (a ++ b) records =
        placedCalls file_index container_ver j a records ++
          placedCalls file_index container_ver (j + a.length) b (records.drop a.length)
  | [], records, j, _ => by simp [placedCalls_nil]
  | x :: a, [], j, h => by simp at h
  | x :: a, r :: records, j, h => by
    have ih := placedCalls_append file_index container_ver b a records (j + 1)
      (by simpa using h)
    have e1 : j + (x :: a).length = j + 1 + a.length := by simp; omega
    rw [List.cons_append, placedCalls_cons, placedCalls_cons, ih, e1]
    simp

theorem placedCalls_length (file_index : Int) (container_ver j : Nat) (slots records : List Nat)
    (h : slots.length ≤ records.length) :
    (placedCalls file_index container_ver j slots records).length = slots.length := by
  simp [placedCalls, List.length_zip, h]

theorem placedCalls_load_index (file_index : Int) (container_ver : Nat) :
    ∀ (slots records : List Nat) (j : Nat), slots.length ≤ records.length →
      (placedCalls file_index container_ver j slots records).map (fun c => c.load_index) = slots
  | [], _, _, _ => by simp [placedCalls_nil]
  | x :: a, [], j, h => by simp at h
  | x :: a, r :: records, j, h => by
    rw [placedCalls_cons, List.map_cons,
      placedCalls_load_index file_index container_ver a records (j + 1) (by simpa using h)]

theorem placedCalls_record (file_index : Int) (container_ver : Nat) :
    ∀ (slots records : List Nat) (j : Nat), slots.length ≤ records.length →
      (placedCalls file_index container_ver j slots records).map (fun c => c.record) =
        (records.take slots.length).map some
  | [], _, _, _ => by simp [placedCalls_nil]
  | x :: a, [], j, h => by simp at h
  | x :: a, r :: records, j, h => by
    rw [placedCalls_cons, List.map_cons,
      placedCalls_record file_index container_ver a records (j + 1) (by simpa using h)]
    simp

theorem take_range'_le (s k n : Nat) (h : k ≤ n) :
    (List.range' s n).take k = List.range' s k := by
  obtain ⟨d, rfl⟩ := Nat.exists_eq_add_of_le h
  rw [Nat.add_comm k d, ← List.range'_append_1 s k d]
  exact List.take_left' (by simp)

theorem rangeSlots_length (ranges : List (Nat × Nat)) :
    (rangeSlots ranges).length = rangeTotal ranges := by
  induction ranges with
  | nil => rfl
  | cons r rs ih =>
    simp only [rangeSlots, rangeTotal, List.flatMap_cons, List.length_append,
      List.length_range', List.map_cons, List.sum_cons] at ih ⊢
    rw [ih]

/-- The inner loop of `LoadGrfFileIndexed` on a range `start..end_` that does not
reach the largest 32 bit value, with enough records in the file. -/
theorem LoadGrfFileIndexed.range_exact (file_index : Int) (container_ver end_ : Nat)
    (hend : end_ < 2 ^ 32 - 1) :
    ∀ (records : List Nat) (start j : Nat), start ≤ end_ →
      end_ - start + 1 ≤ records.length →
      LoadGrfFileIndexed.range file_index container_ver end_ records start (j % 2 ^ 32) =
        ⟨placedCalls file_index container_ver j (List.range' start (end_ - start + 1)) records,
         .returned (records.drop (end_ - start + 1), (j + (end_ - start + 1)) % 2 ^ 32)⟩
  | [], start, j, _, h => by simp at h
  | r :: rest, start, j, hs, h => by
    have hlen : (r :: rest).length = rest.length + 1 := rfl
    rw [hlen] at h
    have h1 : (start + 1) % 2 ^ 32 = start + 1 := by omega
    have h2 : (j % 2 ^ 32 + 1) % 2 ^ 32 = (j + 1) % 2 ^ 32 := by omega
    by_cases h3 : start + 1 ≤ end_
    · obtain ⟨n, hn⟩ : ∃ n, end_ - (start + 1) + 1 = n := ⟨_, rfl⟩
      have hn1 : end_ - start + 1 = n + 1 := by omega
      have ih := LoadGrfFileIndexed.range_exact file_index container_ver end_ hend rest
        (start + 1) (j + 1) h3 (by omega)
      rw [hn] at ih
      have e1 : j + 1 + n = j + (n + 1) := by omega
      simp only [LoadGrfFileIndexed.range, h1, h2, h3, if_true, ih, Run.after, hn1,
        List.range'_succ, placedCalls_cons, List.drop_succ_cons, e1]
    · have hn1 : end_ - start + 1 = 1 := by omega
      simp only [LoadGrfFileIndexed.range, h1, h2, h3, if_false, hn1, List.range'_succ,
        List.range'_zero, placedCalls_cons, placedCalls_nil, List.drop_succ_cons, List.drop_zero]

theorem rangeTable_cons (END : Nat) (r : Nat × Nat) (rs : List (Nat × Nat)) :
    rangeTable END (r :: rs) = r.1 :: r.2 :: rangeTable END rs := by
  simp [rangeTable]

/-- The table loop of `LoadGrfFileIndexed` on a well formed range table whose ranges
do not reach the largest 32 bit value, with enough records in the file. -/
theorem LoadGrfFileIndexed.loop_exact (END : Nat) (file_index : Int) (container_ver : Nat) :
    ∀ (ranges : List (Nat × Nat)) (records : List Nat) (j : Nat),
      (∀ r ∈ ranges, r.1 ≠ END ∧ r.1 ≤ r.2 ∧ r.2 < 2 ^ 32 - 1) →
      rangeTotal ranges ≤ records.length →
      LoadGrfFileIndexed.loop END file_index container_ver (rangeTable END ranges) records
          (j % 2 ^ 32) =
        ⟨placedCalls file_index container_ver j (rangeSlots ranges) records, .returned ()⟩
  | [], records, j, _, _ => by
    simp [rangeTable, LoadGrfFileIndexed.loop, rangeSlots, placedCalls_nil]
  | r :: rs, records, j, hwf, htot => by
    obtain ⟨hE, hle, hmax⟩ := hwf r (List.mem_cons_self _ _)
    have htot1 : r.2 - r.1 + 1 + rangeTotal rs ≤ records.length := by
      simpa [rangeTotal] using htot
    have hin := LoadGrfFileIndexed.range_exact file_index container_ver r.2 hmax records r.1 j
      hle (by omega)
    have ih := LoadGrfFileIndexed.loop_exact END file_index container_ver rs
      (records.drop (r.2 - r.1 + 1)) (j + (r.2 - r.1 + 1))
      (fun x hx => hwf x (List.mem_cons_of_mem _ hx)) (by simp; omega)
    have happ := placedCalls_append file_index container_ver (rangeSlots rs)
      (List.range' r.1 (r.2 - r.1 + 1)) records j (by simp; omega)
    simp only [List.length_range'] at happ
    have hslots : rangeSlots (r :: rs) = List.range' r.1 (r.2 - r.1 + 1) ++ rangeSlots rs := by
      simp [rangeSlots]
    rw [rangeTable_cons, hslots, happ]
    simp only [LoadGrfFileIndexed.loop, hE, if_false, hin, ih]


/-- The inner loop of `LoadGrfFileIndexed` on any range and any file: either the
assertion fails after every record of the file was read, or the loop returns
after it consumed at least `end_ - start + 1` records. -/
theorem LoadGrfFileIndexed.range_spec (file_index : Int) (container_ver end_ : Nat) :
    ∀ (records : List Nat) (start sprite_id : Nat),
      ((LoadGrfFileIndexed.range file_index container_ver end_ records start
          sprite_id).result = .assert_failed ∧
        (LoadGrfFileIndexed.range file_index container_ver end_ records start
          sprite_id).calls.map (fun c => c.record) = records.map some ++ [none]) ∨
      (∃ rest sid, (LoadGrfFileIndexed.range file_index container_ver end_ records start
          sprite_id).result = .returned (rest, sid) ∧
        (LoadGrfFileIndexed.range file_index container_ver end_ records start
          sprite_id).calls.map (fun c => c.record) ++ rest.map some = records.map some ∧
        (start ≤ end_ → rest.length + (end_ - start + 1) ≤ records.length))
  | [], _, _ => Or.inl ⟨rfl, rfl⟩
  | r :: rest, start, sprite_id => by
    by_cases h3 : (start + 1) % 2 ^ 32 ≤ end_
    · have ih := LoadGrfFileIndexed.range_spec file_index container_ver end_ rest
        ((start + 1) % 2 ^ 32) ((sprite_id + 1) % 2 ^ 32)
      simp only [LoadGrfFileIndexed.range, h3, if_true, Run.after, List.map_cons,
        List.cons_append]
      rcases ih with ⟨h1, h2⟩ | ⟨rest1, sid, h1, h2, h4⟩
      · exact Or.inl ⟨h1, by rw [h2]⟩
      · refine Or.inr ⟨rest1, sid, h1, by rw [h2], fun hs => ?_⟩
        have := h4 h3
        simp only [List.length_cons]
        omega
    · simp only [LoadGrfFileIndexed.range, h3, if_false]
      refine Or.inr ⟨rest, _, rfl, by simp, fun hs => ?_⟩
      simp only [List.length_cons]
      omega

/-- The table loop of `LoadGrfFileIndexed` on a well formed range table and a file
with fewer records than the table names slots: the assertion fails after every
record of the file was read. -/
theorem LoadGrfFileIndexed.loop_short (END : Nat) (file_index : Int) (container_ver : Nat) :
    ∀ (ranges : List (Nat × Nat)) (records : List Nat) (sprite_id : Nat),
      (∀ r ∈ ranges, r.1 ≠ END ∧ r.1 ≤ r.2) →
      records.length < rangeTotal ranges →
      (LoadGrfFileIndexed.loop END file_index container_ver (rangeTable END ranges) records
          sprite_id).result = .assert_failed ∧
      (LoadGrfFileIndexed.loop END file_index container_ver (rangeTable END ranges) records
          sprite_id).calls.map (fun c => c.record) = records.map some ++ [none]
  | [], records, _, _, h => by simp [rangeTotal] at h
  | r :: rs, records, sprite_id, hwf, htot => by
    obtain ⟨hE, hle⟩ := hwf r (List.mem_cons_self _ _)
    have htot1 : records.length < r.2 - r.1 + 1 + rangeTotal rs := by
      simpa [rangeTotal] using htot
    rw [rangeTable_cons]
    simp only [LoadGrfFileIndexed.loop, hE, if_false]
    rcases LoadGrfFileIndexed.range_spec file_index container_ver r.2 records r.1 sprite_id
      with ⟨h1, h2⟩ | ⟨rest, sid, h1, h2, h4⟩
    · rw [h1]
      exact ⟨rfl, h2⟩
    · rw [h1]
      have ih := LoadGrfFileIndexed.loop_short END file_index container_ver rs rest sid
        (fun x hx => hwf x (List.mem_cons_of_mem _ hx)) (by have := h4 hle; omega)
      refine ⟨ih.1, ?_⟩
      simp only [List.map_append, ih.2]
      rw [← List.append_assoc, h2]

/-- The slots read by the inner loop of `LoadGrfFileIndexed` when the file ends
inside a range that does not reach the largest 32 bit value. -/
theorem LoadGrfFileIndexed.range_short_slots (file_index : Int) (container_ver end_ : Nat)
    (hend : end_ < 2 ^ 32 - 1) :
    ∀ (records : List Nat) (start sprite_id : Nat), start ≤ end_ →
      records.length < end_ - start + 1 →
      (LoadGrfFileIndexed.range file_index container_ver end_ records start
          sprite_id).calls.map (fun c => c.load_index) = List.range' start (records.length + 1)
  | [], _, _, _, _ => rfl
  | r :: rest, start, sprite_id, hs, h => by
    have hlen : (r :: rest).length = rest.length + 1 := rfl
    rw [hlen] at h ⊢
    have h1 : (start + 1) % 2 ^ 32 = start + 1 := by omega
    have h3 : start + 1 ≤ end_ := by omega
    have ih := LoadGrfFileIndexed.range_short_slots file_index container_ver end_ hend rest
      (start + 1) ((sprite_id + 1) % 2 ^ 32) h3 (by omega)
    simp only [LoadGrfFileIndexed.range, h1, h3, if_true, Run.after, List.map_cons, ih]
    rw [List.range'_succ start (rest.length + 1)]

/-- The slots read by the table loop of `LoadGrfFileIndexed` when the file has fewer
records than the table names slots: the first slots of the table, in order, one per
record, and then the slot at which the end-of-data was met. -/
theorem LoadGrfFileIndexed.loop_short_slots (END : Nat) (file_index : Int)
    (container_ver : Nat) :
    ∀ (ranges : List (Nat × Nat)) (records : List Nat) (j : Nat),
      (∀ r ∈ ranges, r.1 ≠ END ∧ r.1 ≤ r.2 ∧ r.2 < 2 ^ 32 - 1) →
      records.length < rangeTotal ranges →
      (LoadGrfFileIndexed.loop END file_index container_ver (rangeTable END ranges) records
          (j % 2 ^ 32)).calls.map (fun c => c.load_index) =
        (rangeSlots ranges).take (records.length + 1)
  | [], records, _, _, h => by simp [rangeTotal] at h
  | r :: rs, records, j, hwf, htot => by
    obtain ⟨hE, hle, hmax⟩ := hwf r (List.mem_cons_self _ _)
    have htot1 : records.length < r.2 - r.1 + 1 + rangeTotal rs := by
      simpa [rangeTotal] using htot
    have hslots : rangeSlots (r :: rs) = List.range' r.1 (r.2 - r.1 + 1) ++ rangeSlots rs := by
      simp [rangeSlots]
    rw [rangeTable_cons, hslots]
    simp only [LoadGrfFileIndexed.loop, hE, if_false]
    by_cases hn : records.length < r.2 - r.1 + 1
    · have hsl := LoadGrfFileIndexed.range_short_slots file_index container_ver r.2 hmax
        records r.1 (j % 2 ^ 32) hle hn
      rcases LoadGrfFileIndexed.range_spec file_index container_ver r.2 records r.1
        (j % 2 ^ 32) with ⟨h1, _⟩ | ⟨rest, sid, _, _, h4⟩
      · rw [h1]
        simp only [hsl]
        rw [List.take_append_of_le_length (by simp; omega)]
        exact (take_range'_le r.1 (records.length + 1) (r.2 - r.1 + 1) (by omega)).symm
      · have := h4 hle
        omega
    · have hin := LoadGrfFileIndexed.range_exact file_index container_ver r.2 hmax records
        r.1 j hle (by omega)
      have ih := LoadGrfFileIndexed.loop_short_slots END file_index container_ver rs
        (records.drop (r.2 - r.1 + 1)) (j + (r.2 - r.1 + 1))
        (fun x hx => hwf x (List.mem_cons_of_mem _ hx)) (by simp; omega)
      simp only [hin, List.map_append, ih]
      rw [placedCalls_load_index file_index container_ver _ records j (by simp; omega)]
      have e0 : List.take (records.length + 1) (List.range' r.1 (r.2 - r.1 + 1)) =
          List.range' r.1 (r.2 - r.1 + 1) := List.take_of_length_le (by simp; omega)
      rw [List.take_append_eq_append_take, e0]
      have e1 : (List.drop (r.2 - r.1 + 1) records).length + 1 =
          records.length + 1 - (List.range' r.1 (r.2 - r.1 + 1)).length := by
        simp only [List.length_range', List.length_drop]
        omega
      rw [e1]


/-- C2 (amended). Indexed mode: for a range table (s1,e1), ..., (sk,ek) followed by
the END sentinel, with si different from END, si <= ei and ei below the largest 32
bit value for every i, and a file with an accepted header that supplies at least
the sum of (ei - si + 1) records, LoadGrfFileIndexed returns after exactly that many
reads, all successful, and the j-th record of the file (file-local counter j, from
0) is placed at the j-th element of the sequence s1..e1, ..., sk..ek. -/
theorem LoadGrfFileIndexed_places (END : Nat) (f : GrfFile) (ranges : List (Nat × Nat))
    (file_index : Int)
    (hver : f.container_ver ≠ 0) (hcomp : 2 ≤ f.container_ver → f.compression = 0)
    (hwf : ∀ r ∈ ranges, r.1 ≠ END ∧ r.1 ≤ r.2 ∧ r.2 < 2 ^ 32 - 1)
    (hrec : rangeTotal ranges ≤ f.records.length) :
    (LoadGrfFileIndexed END f (rangeTable END ranges) file_index).result = .returned () ∧
    (LoadGrfFileIndexed END f (rangeTable END ranges) file_index).calls =
      placedCalls file_index f.container_ver 0 (rangeSlots ranges) f.records ∧
    (LoadGrfFileIndexed END f (rangeTable END ranges) file_index).calls.length =
      rangeTotal ranges ∧
    (LoadGrfFileIndexed END f (rangeTable END ranges) file_index).calls.map
      (fun c => c.load_index) = rangeSlots ranges ∧
    (LoadGrfFileIndexed END f (rangeTable END ranges) file_index).calls.map
      (fun c => c.record) = (f.records.take (rangeTotal ranges)).map some := by
  have hc : ¬ (f.container_ver ≥ 2 ∧ f.compression ≠ 0) := fun h => h.2 (hcomp h.1)
  have hl := LoadGrfFileIndexed.loop_exact END file_index f.container_ver ranges f.records 0
    hwf hrec
  have hlen : (rangeSlots ranges).length ≤ f.records.length := by
    rw [rangeSlots_length]; exact hrec
  have hrun : LoadGrfFileIndexed END f (rangeTable END ranges) file_index =
      ⟨placedCalls file_index f.container_ver 0 (rangeSlots ranges) f.records,
        .returned ()⟩ := by
    simp only [LoadGrfFileIndexed, hver, hc, if_false]
    exact hl
  rw [hrun]
  refine ⟨rfl, rfl, ?_, ?_, ?_⟩
  · rw [placedCalls_length _ _ _ _ _ hlen, rangeSlots_length]
  · exact placedCalls_load_index _ _ _ _ _ hlen
  · rw [← rangeSlots_length]
    exact placedCalls_record _ _ _ _ _ hlen

/-- Instance of C2: the table [(10,12),(20,20)] and a file with five records; four
records are consumed and placed at 10, 11, 12, 20 in that order. -/
theorem LoadGrfFileIndexed_places_witness :
    (LoadGrfFileIndexed 65535 ⟨2, 0, [7, 8, 9, 10, 11]⟩
      (rangeTable 65535 [(10, 12), (20, 20)]) 2).result = .returned () ∧
    (LoadGrfFileIndexed 65535 ⟨2, 0, [7, 8, 9, 10, 11]⟩
      (rangeTable 65535 [(10, 12), (20, 20)]) 2).calls =
      [⟨10, 2, 0, 2, some 7⟩, ⟨11, 2, 1, 2, some 8⟩, ⟨12, 2, 2, 2, some 9⟩,
       ⟨20, 2, 3, 2, some 10⟩] ∧
    (LoadGrfFileIndexed 65535 ⟨2, 0, [7, 8, 9, 10, 11]⟩
      (rangeTable 65535 [(10, 12), (20, 20)]) 2).calls.length = 4 ∧
    (LoadGrfFileIndexed 65535 ⟨2, 0, [7, 8, 9, 10, 11]⟩
      (rangeTable 65535 [(10, 12), (20, 20)]) 2).calls.map (fun c => c.load_index) =
      [10, 11, 12, 20] ∧
    (LoadGrfFileIndexed 65535 ⟨2, 0, [7, 8, 9, 10, 11]⟩
      (rangeTable 65535 [(10, 12), (20, 20)]) 2).calls.map (fun c => c.record) =
      [some 7, some 8, some 9, some 10] :=
  LoadGrfFileIndexed_places 65535 ⟨2, 0, [7, 8, 9, 10, 11]⟩ [(10, 12), (20, 20)] 2
    (by decide) (by decide) (by decide) (by decide)

/-- C2, counterexample. The range (4294967295, 4294967295) has start <= end and
names one slot, and the file supplies three records; the increment of `start` wraps
to 0, which is not above `end`, so the loader reads all three records (slots
4294967295, 0, 1) and then fails the assertion instead of returning after one. -/
theorem LoadGrfFileIndexed_places_counterexample :
    rangeTotal [(4294967295, 4294967295)] = 1 ∧
    (LoadGrfFileIndexed 65535 ⟨1, 0, [7, 8, 9]⟩
      (rangeTable 65535 [(4294967295, 4294967295)]) 0).result = .assert_failed ∧
    (LoadGrfFileIndexed 65535 ⟨1, 0, [7, 8, 9]⟩
      (rangeTable 65535 [(4294967295, 4294967295)]) 0).calls =
      [⟨4294967295, 0, 0, 1, some 7⟩, ⟨0, 0, 1, 1, some 8⟩, ⟨1, 0, 2, 1, some 9⟩,
       ⟨2, 0, 3, 1, none⟩] := by
  decide

/-- C3. Header validation in LoadGrfFile and LoadGrfFileIndexed: with container
version 0 the load ends in the corrupt-file user error, and with version >= 2 and a
non-zero compression byte in the unsupported-compression user error, in both cases
before any LoadNextSprite call; in every other case (version 1 whatever the byte at
the compression position, version >= 2 with compression 0) neither error is raised
and sprite reading starts: the first call of LoadGrfFile reads at the start index
with counter 0, LoadGrfFileIndexed runs its table loop on the records with counter
0 and its first call reads at the first start of the table. -/
theorem header_validation (MAX_SPRITES END : Nat) (f : GrfFile) (K : Nat)
    (index_tbl : List Nat) (file_index : Int) :
    (f.container_ver = 0 →
      LoadGrfFile MAX_SPRITES f K file_index = ⟨[], .usererror .corrupt_base_grf⟩ ∧
      LoadGrfFileIndexed END f index_tbl file_index = ⟨[], .usererror .corrupt_base_grf⟩) ∧
    (2 ≤ f.container_ver ∧ f.compression ≠ 0 →
      LoadGrfFile MAX_SPRITES f K file_index = ⟨[], .usererror .unsupported_compression⟩ ∧
      LoadGrfFileIndexed END f index_tbl file_index =
        ⟨[], .usererror .unsupported_compression⟩) ∧
    (f.container_ver = 1 ∨ (2 ≤ f.container_ver ∧ f.compression = 0) →
      (LoadGrfFile MAX_SPRITES f K file_index).calls.head? =
        some ⟨K, file_index, 0, f.container_ver, f.records.head?⟩ ∧
      (LoadGrfFile MAX_SPRITES f K file_index).result ≠ .usererror .corrupt_base_grf ∧
      (LoadGrfFile MAX_SPRITES f K file_index).result ≠
        .usererror .unsupported_compression ∧
      LoadGrfFileIndexed END f index_tbl file_index =
        LoadGrfFileIndexed.loop END file_index f.container_ver index_tbl f.records 0 ∧
      (∀ e, (LoadGrfFileIndexed END f index_tbl file_index).result ≠ .usererror e) ∧
      (∀ start end_ rest, index_tbl = start :: end_ :: rest → start ≠ END →
        (LoadGrfFileIndexed END f index_tbl file_index).calls.head? =
          some ⟨start, file_index, 0, f.container_ver, f.records.head?⟩)) := by
  refine ⟨fun h0 => ?_, fun h2 => ?_, fun hok => ?_⟩
  · simp [LoadGrfFile, LoadGrfFileIndexed, h0]
  · have hne : f.container_ver ≠ 0 := by omega
    simp [LoadGrfFile, LoadGrfFileIndexed, hne, h2.1, h2.2]
  · have hne : f.container_ver ≠ 0 := by omega
    have hc : ¬ (f.container_ver ≥ 2 ∧ f.compression ≠ 0) := by
      rintro ⟨h2, h3⟩
      rcases hok with h1 | ⟨_, h4⟩
      · omega
      · exact h3 h4
    have hidx : LoadGrfFileIndexed END f index_tbl file_index =
        LoadGrfFileIndexed.loop END file_index f.container_ver index_tbl f.records 0 := by
      simp only [LoadGrfFileIndexed, hne, hc, if_false]
    have hhead := LoadGrfFile.loop_head MAX_SPRITES file_index f.container_ver f.records K 0
    have hres := LoadGrfFile.loop_result MAX_SPRITES file_index f.container_ver f.records K 0
    refine ⟨?_, ?_, ?_, hidx, ?_, ?_⟩
    · simp only [LoadGrfFile, hne, hc, if_false]
      split <;> exact hhead
    · simp only [LoadGrfFile, hne, hc, if_false]
      rcases hres with ⟨n, hn⟩ | hn <;> rw [hn] <;> simp
    · simp only [LoadGrfFile, hne, hc, if_false]
      rcases hres with ⟨n, hn⟩ | hn <;> rw [hn] <;> simp
    · intro e
      rw [hidx]
      exact LoadGrfFileIndexed.loop_no_usererror _ _ _ _ _ _ e
    · intro start end_ rest htbl hstart
      rw [hidx, htbl]
      have hh := LoadGrfFileIndexed.range_head file_index f.container_ver end_ f.records
        start 0
      simp only [LoadGrfFileIndexed.loop, hstart, if_false]
      split
      · rw [List.head?_append_of_ne_nil]
        · exact hh
        · intro hnil
          rw [hnil] at hh
          simp at hh
      all_goals exact hh


/-- Instance of C3 on files with version 0, with version 2 and compression 1, with
version 1, and with version 2 and compression 0. -/
theorem header_validation_witness :
    (LoadGrfFile 16777216 ⟨0, 0, [7]⟩ 0 0 = ⟨[], .usererror .corrupt_base_grf⟩ ∧
      LoadGrfFileIndexed 65535 ⟨0, 0, [7]⟩ [10, 10, 65535] 0 =
        ⟨[], .usererror .corrupt_base_grf⟩) ∧
    (LoadGrfFile 16777216 ⟨2, 1, [7]⟩ 0 0 = ⟨[], .usererror .unsupported_compression⟩ ∧
      LoadGrfFileIndexed 65535 ⟨2, 1, [7]⟩ [10, 10, 65535] 0 =
        ⟨[], .usererror .unsupported_compression⟩) ∧
    (LoadGrfFile 16777216 ⟨1, 5, [7]⟩ 0 0).calls.head? = some ⟨0, 0, 0, 1, some 7⟩ ∧
    (LoadGrfFileIndexed 65535 ⟨2, 0, [7]⟩ [10, 10, 65535] 0).calls.head? =
      some ⟨10, 0, 0, 2, some 7⟩ :=
  ⟨(header_validation 16777216 65535 ⟨0, 0, [7]⟩ 0 [10, 10, 65535] 0).1 rfl,
   (header_validation 16777216 65535 ⟨2, 1, [7]⟩ 0 [10, 10, 65535] 0).2.1 (by decide),
   ((header_validation 16777216 65535 ⟨1, 5, [7]⟩ 0 [10, 10, 65535] 0).2.2 (by decide)).1,
   ((header_validation 16777216 65535 ⟨2, 0, [7]⟩ 0 [10, 10, 65535] 0).2.2
      (by decide)).2.2.2.2.2 10 10 [65535] rfl (by decide)⟩

/-- C4 (amended). Capacity check in sequential mode: for a start index K below
MAX_SPRITES and a file with an accepted header that has enough records to bring the
running index to MAX_SPRITES, LoadGrfFile ends in the Too many sprites error after
it read exactly the first MAX_SPRITES - K records at the indices K, ...,
MAX_SPRITES - 1; every call has a target index below MAX_SPRITES, and the record
whose loading brought the running index to MAX_SPRITES has been written, at index
MAX_SPRITES - 1, when the error is raised. -/
theorem LoadGrfFile_capacity (MAX_SPRITES : Nat) (f : GrfFile) (K : Nat) (file_index : Int)
    (hver : f.container_ver ≠ 0) (hcomp : 2 ≤ f.container_ver → f.compression = 0)
    (hMAX : MAX_SPRITES < 2 ^ 32) (hK : K < MAX_SPRITES)
    (hover : MAX_SPRITES ≤ K + f.records.length) :
    (LoadGrfFile MAX_SPRITES f K file_index).result = .usererror .too_many_sprites ∧
    (LoadGrfFile MAX_SPRITES f K file_index).calls =
      (f.records.take (MAX_SPRITES - K)).enum.map
        (fun p => ⟨K + p.1, file_index, p.1, f.container_ver, some p.2⟩) ∧
    (∀ c ∈ (LoadGrfFile MAX_SPRITES f K file_index).calls, c.load_index < MAX_SPRITES) ∧
    (∃ r, f.records[MAX_SPRITES - 1 - K]? = some r ∧
      (⟨MAX_SPRITES - 1, file_index, MAX_SPRITES - 1 - K, f.container_ver, some r⟩ :
        SpriteCall) ∈ (LoadGrfFile MAX_SPRITES f K file_index).writes) := by
  have hc : ¬ (f.container_ver ≥ 2 ∧ f.compression ≠ 0) := fun h => h.2 (hcomp h.1)
  have hl := LoadGrfFile.loop_overflow MAX_SPRITES file_index f.container_ver K hMAX
    f.records 0 (by omega) (by omega)
  simp only [Nat.add_zero] at hl
  have hrun : LoadGrfFile MAX_SPRITES f K file_index =
      ⟨(f.records.take (MAX_SPRITES - K)).enum.map
        (fun p => ⟨K + p.1, file_index, p.1, f.container_ver, some p.2⟩),
       .usererror .too_many_sprites⟩ := by
    simp only [LoadGrfFile, hver, hc, if_false, hl]
    rfl
  rw [hrun]
  have hlt : MAX_SPRITES - 1 - K < f.records.length := by omega
  refine ⟨rfl, rfl, ?_, f.records[MAX_SPRITES - 1 - K], ?_, ?_⟩
  · intro c hc'
    simp only [List.mem_map] at hc'
    obtain ⟨p, hp, rfl⟩ := hc'
    have hp1 := List.fst_lt_of_mem_enum hp
    simp only [List.length_take] at hp1
    show K + p.1 < MAX_SPRITES
    omega
  · exact List.getElem?_eq_getElem hlt
  · simp only [Run.writes, List.mem_filter, List.mem_map]
    refine ⟨⟨(MAX_SPRITES - 1 - K, f.records[MAX_SPRITES - 1 - K]), ?_, ?_⟩, rfl⟩
    · rw [List.mk_mem_enum_iff_getElem?, List.getElem?_take_of_lt (by omega)]
      exact List.getElem?_eq_getElem hlt
    · have e1 : K + (MAX_SPRITES - 1 - K) = MAX_SPRITES - 1 := by omega
      simp only [e1]

/-- Instance of C4 (amended): three records loaded from index MAX_SPRITES - 2. -/
theorem LoadGrfFile_capacity_witness :
    (LoadGrfFile 16777216 ⟨2, 0, [7, 8, 9]⟩ 16777214 0).result =
      .usererror .too_many_sprites ∧
    (LoadGrfFile 16777216 ⟨2, 0, [7, 8, 9]⟩ 16777214 0).calls =
      [⟨16777214, 0, 0, 2, some 7⟩, ⟨16777215, 0, 1, 2, some 8⟩] :=
  let h := LoadGrfFile_capacity 16777216 ⟨2, 0, [7, 8, 9]⟩ 16777214 0 (by decide) (by decide)
    (by decide) (by decide) (by decide)
  ⟨h.1, h.2.1⟩

/-- C4, counterexample. With MAX_SPRITES = 16777216 and start index 16777214 the
second record of the file brings the running index to MAX_SPRITES; when the Too
many sprites error is raised that record is already in the sprite table, at index
16777215. -/
theorem LoadGrfFile_capacity_counterexample :
    (LoadGrfFile 16777216 ⟨1, 0, [7, 8]⟩ 16777214 0).result =
      .usererror .too_many_sprites ∧
    (LoadGrfFile 16777216 ⟨1, 0, [7, 8]⟩ 16777214 0).writes =
      [⟨16777214, 0, 0, 1, some 7⟩, ⟨16777215, 0, 1, 1, some 8⟩] := by
  decide

/-- C5. Indexed mode never truncates silently: for a range table with si different
from END and si <= ei for every i, and a file with fewer records than the sum of
(ei - si + 1), LoadGrfFileIndexed does not return normally; with an accepted header
it ends in the failed assertion on the parser result, after every record of the
file was read and placed and one more read met the end-of-data, and when no ei is
the largest 32 bit value the slots read are the first slots of the table in order. -/
theorem LoadGrfFileIndexed_short_file (END : Nat) (f : GrfFile) (ranges : List (Nat × Nat))
    (file_index : Int)
    (hwf : ∀ r ∈ ranges, r.1 ≠ END ∧ r.1 ≤ r.2)
    (hshort : f.records.length < rangeTotal ranges) :
    (LoadGrfFileIndexed END f (rangeTable END ranges) file_index).result ≠ .returned () ∧
    (f.container_ver ≠ 0 → (2 ≤ f.container_ver → f.compression = 0) →
      (LoadGrfFileIndexed END f (rangeTable END ranges) file_index).result =
        .assert_failed ∧
      (LoadGrfFileIndexed END f (rangeTable END ranges) file_index).calls.map
        (fun c => c.record) = f.records.map some ++ [none] ∧
      ((∀ r ∈ ranges, r.2 < 2 ^ 32 - 1) →
        (LoadGrfFileIndexed END f (rangeTable END ranges) file_index).calls.map
          (fun c => c.load_index) = (rangeSlots ranges).take (f.records.length + 1))) := by
  have hl := LoadGrfFileIndexed.loop_short END file_index f.container_ver ranges f.records 0
    hwf hshort
  constructor
  · simp only [LoadGrfFileIndexed]
    split
    · simp
    · split
      · simp
      · rw [hl.1]
        simp
  · intro hver hcomp
    have hc : ¬ (f.container_ver ≥ 2 ∧ f.compression ≠ 0) := fun h => h.2 (hcomp h.1)
    have hrun : LoadGrfFileIndexed END f (rangeTable END ranges) file_index =
        LoadGrfFileIndexed.loop END file_index f.container_ver (rangeTable END ranges)
          f.records 0 := by
      simp only [LoadGrfFileIndexed, hver, hc, if_false]
    rw [hrun]
    refine ⟨hl.1, hl.2, fun hmax => ?_⟩
    exact LoadGrfFileIndexed.loop_short_slots END file_index f.container_ver ranges
      f.records 0 (fun r hr => ⟨(hwf r hr).1, (hwf r hr).2, hmax r hr⟩) hshort

/-- Instance of C5: the table [(10,12),(20,20)] and a file with only three records;
the assertion fails after the slots 10, 11, 12 were filled. -/
theorem LoadGrfFileIndexed_short_file_witness :
    (LoadGrfFileIndexed 65535 ⟨2, 0, [7, 8, 9]⟩
      (rangeTable 65535 [(10, 12), (20, 20)]) 2).result = .assert_failed ∧
    (LoadGrfFileIndexed 65535 ⟨2, 0, [7, 8, 9]⟩
      (rangeTable 65535 [(10, 12), (20, 20)]) 2).calls.map (fun c => c.record) =
      [some 7, some 8, some 9, none] ∧
    (LoadGrfFileIndexed 65535 ⟨2, 0, [7, 8, 9]⟩
      (rangeTable 65535 [(10, 12), (20, 20)]) 2).calls.map (fun c => c.load_index) =
      [10, 11, 12, 20] :=
  let h := (LoadGrfFileIndexed_short_file 65535 ⟨2, 0, [7, 8, 9]⟩ [(10, 12), (20, 20)] 2
    (by decide) (by decide)).2 (by decide) (by decide)
  ⟨h.1, h.2.1, h.2.2 (by decide)⟩


/-! ## Blitter selection -/

/-- C6. Candidate selection on the two specified inputs: with the base set wanting
32bpp, the content wanting 32bpp and animation requested, SelectNewGRFBlitter returns
32bpp-sse4-anim when the SSE entries are compiled in and 32bpp-anim otherwise; with
the base set wanting 8bpp, the content wanting 8bpp and no animation requested it
returns 8bpp-optimized in both builds. -/
theorem SelectNewGRFBlitter_specified_inputs :
    SelectNewGRFBlitter true true true true = .returned "32bpp-sse4-anim" ∧
    SelectNewGRFBlitter false true true true = .returned "32bpp-anim" ∧
    SelectNewGRFBlitter true false false false = .returned "8bpp-optimized" ∧
    SelectNewGRFBlitter false false false false = .returned "8bpp-optimized" := by
  decide

/-- C7. The selector scan always finds a match: in both builds the last two entries
of replacement_blitters are 32bpp-optimized and 32bpp-anim, for each of the 8
combinations of the three inputs the scan over these two entries alone already
returns one of them, and the scan over the whole table returns the name of an entry
of the table, so the assertion on the index is never violated. -/
theorem SelectNewGRFBlitter_always_matches
    (WITH_SSE base_wants_32bpp grf_wants_32bpp animation_wanted : Bool) :
    ((replacement_blitters WITH_SSE).drop
      ((replacement_blitters WITH_SSE).length - 2)).map (fun b => b.name) =
      ["32bpp-optimized", "32bpp-anim"] ∧
    (∃ b ∈ (replacement_blitters WITH_SSE).drop ((replacement_blitters WITH_SSE).length - 2),
      SelectNewGRFBlitter.scan animation_wanted base_wants_32bpp grf_wants_32bpp
        ((replacement_blitters WITH_SSE).drop ((replacement_blitters WITH_SSE).length - 2)) =
        .returned b.name) ∧
    (∃ b ∈ replacement_blitters WITH_SSE,
      SelectNewGRFBlitter WITH_SSE base_wants_32bpp grf_wants_32bpp animation_wanted =
        .returned b.name) := by
  cases WITH_SSE <;> cases base_wants_32bpp <;> cases grf_wants_32bpp <;>
    cases animation_wanted <;> decide


/-! ## Blitter switch -/

/-- C8. Switch rollback protocol: on a run of SwitchNewGRFBlitter that reaches the
switch (autodetected blitter, non-zero screen depth, selected name different from
the active name, new blitter selected) and in which AfterBlitterChange fails for the
new blitter, the previous blitter is selected again and, when that selection did not
return NULL, AfterBlitterChange is called again; the fatal user error is raised if
and only if the re-selection returns NULL or the second AfterBlitterChange fails,
and otherwise the call returns true with the previous blitter active again. -/
theorem SwitchNewGRFBlitter_rollback (env : BlitterEnv) (WITH_SSE : Bool) (st : BlitterState)
    (base_wants_32bpp grf_wants_32bpp animation_wanted : Bool) (repl_blitter : String)
    (hauto : st.autodetected = true) (hdepth : env.screen_depth st.active ≠ 0)
    (hsel : SelectNewGRFBlitter WITH_SSE base_wants_32bpp grf_wants_32bpp animation_wanted =
      .returned repl_blitter)
    (hne : repl_blitter ≠ st.active) (hnew : env.available repl_blitter = true)
    (hfail : env.after_blitter_change repl_blitter 0 = false) :
    (SwitchNewGRFBlitter env WITH_SSE st base_wants_32bpp grf_wants_32bpp
        animation_wanted).calls =
      [.select repl_blitter, .AfterBlitterChange, .select st.active] ++
        (if env.available st.active then [.AfterBlitterChange] else []) ∧
    ((SwitchNewGRFBlitter env WITH_SSE st base_wants_32bpp grf_wants_32bpp
        animation_wanted).result = .usererror .video_reinit_failed ↔
      (env.available st.active = false ∨ env.after_blitter_change st.active 1 = false)) ∧
    (¬ (env.available st.active = false ∨ env.after_blitter_change st.active 1 = false) →
      (SwitchNewGRFBlitter env WITH_SSE st base_wants_32bpp grf_wants_32bpp
        animation_wanted).result = .returned true ∧
      (SwitchNewGRFBlitter env WITH_SSE st base_wants_32bpp grf_wants_32bpp
        animation_wanted).active = st.active) := by
  simp only [SwitchNewGRFBlitter, hauto, hsel, hne, hnew, hfail, hdepth]
  cases h1 : env.available st.active <;> cases h2 : env.after_blitter_change st.active 1 <;>
    simp

/-- Instance of C8: the driver does not adapt to 32bpp-optimized and the switch is
rolled back to 8bpp-optimized. -/
theorem SwitchNewGRFBlitter_rollback_witness :
    (SwitchNewGRFBlitter rollbackEnv false ⟨true, "8bpp-optimized"⟩ true false false).calls =
      [.select "32bpp-optimized", .AfterBlitterChange, .select "8bpp-optimized",
       .AfterBlitterChange] ∧
    (SwitchNewGRFBlitter rollbackEnv false ⟨true, "8bpp-optimized"⟩ true false false).result =
      .returned true ∧
    (SwitchNewGRFBlitter rollbackEnv false ⟨true, "8bpp-optimized"⟩ true false false).active =
      "8bpp-optimized" :=
  let h := SwitchNewGRFBlitter_rollback rollbackEnv false ⟨true, "8bpp-optimized"⟩ true false
    false "32bpp-optimized" rfl (by decide) (by decide) (by decide) rfl (by decide)
  ⟨h.1, h.2.2 (by decide)⟩

/-- C9. Switch no-op conditions: if the active blitter was specified by the user
(autodetected is false), or the active blitter reports screen depth 0, or the name
returned by SelectNewGRFBlitter equals the name of the active blitter, then
SwitchNewGRFBlitter returns false, makes no Blitter::select call and no
AfterBlitterChange call, and leaves the active blitter unchanged. -/
theorem SwitchNewGRFBlitter_noop (env : BlitterEnv) (WITH_SSE : Bool) (st : BlitterState)
    (base_wants_32bpp grf_wants_32bpp animation_wanted : Bool)
    (h : st.autodetected = false ∨ env.screen_depth st.active = 0 ∨
      SelectNewGRFBlitter WITH_SSE base_wants_32bpp grf_wants_32bpp animation_wanted =
        .returned st.active) :
    (SwitchNewGRFBlitter env WITH_SSE st base_wants_32bpp grf_wants_32bpp
        animation_wanted).result = .returned false ∧
    (SwitchNewGRFBlitter env WITH_SSE st base_wants_32bpp grf_wants_32bpp
        animation_wanted).calls = [] ∧
    (SwitchNewGRFBlitter env WITH_SSE st base_wants_32bpp grf_wants_32bpp
        animation_wanted).active = st.active := by
  cases hauto : st.autodetected
  · simp [SwitchNewGRFBlitter, hauto]
  · by_cases hdepth : env.screen_depth st.active = 0
    · simp [SwitchNewGRFBlitter, hauto, hdepth]
    · rcases h with h | h | h
      · rw [hauto] at h; cases h
      · exact absurd h hdepth
      · simp [SwitchNewGRFBlitter, hauto, hdepth, h]

/-- Instance of C9: the selected blitter is the active one. -/
theorem SwitchNewGRFBlitter_noop_witness :
    (SwitchNewGRFBlitter rollbackEnv false ⟨true, "8bpp-optimized"⟩ false false true).result =
      .returned false ∧
    (SwitchNewGRFBlitter rollbackEnv false ⟨true, "8bpp-optimized"⟩ false false true).calls =
      [] ∧
    (SwitchNewGRFBlitter rollbackEnv false ⟨true, "8bpp-optimized"⟩ false false true).active =
      "8bpp-optimized" :=
  SwitchNewGRFBlitter_noop rollbackEnv false ⟨true, "8bpp-optimized"⟩ false false true
    (Or.inr (Or.inr (by decide)))

/-- C10 (amended). Return value of SwitchNewGRFBlitter: on every run that returns
normally the result is true if and only if a Blitter::select call was made (a switch
was attempted); when the result is false no call was made and the active blitter is
the one from before the call, and whenever the active blitter after the call differs
from the one before, the result is true. -/
theorem SwitchNewGRFBlitter_result (env : BlitterEnv) (WITH_SSE : Bool) (st : BlitterState)
    (base_wants_32bpp grf_wants_32bpp animation_wanted : Bool) (b : Bool)
    (hret : (SwitchNewGRFBlitter env WITH_SSE st base_wants_32bpp grf_wants_32bpp
      animation_wanted).result = .returned b) :
    (b = true ↔ ∃ name, BlitterCall.select name ∈
      (SwitchNewGRFBlitter env WITH_SSE st base_wants_32bpp grf_wants_32bpp
        animation_wanted).calls) ∧
    (b = false →
      (SwitchNewGRFBlitter env WITH_SSE st base_wants_32bpp grf_wants_32bpp
        animation_wanted).calls = [] ∧
      (SwitchNewGRFBlitter env WITH_SSE st base_wants_32bpp grf_wants_32bpp
        animation_wanted).active = st.active) ∧
    ((SwitchNewGRFBlitter env WITH_SSE st base_wants_32bpp grf_wants_32bpp
        animation_wanted).active ≠ st.active → b = true) := by
  cases hauto : st.autodetected
  · simp [SwitchNewGRFBlitter, hauto] at hret ⊢
    simp [← hret]
  by_cases hdepth : env.screen_depth st.active = 0
  · simp [SwitchNewGRFBlitter, hauto, hdepth] at hret ⊢
    simp [← hret]
  cases hsel : SelectNewGRFBlitter WITH_SSE base_wants_32bpp grf_wants_32bpp animation_wanted with
  | returned repl_blitter =>
    by_cases hne : repl_blitter = st.active
    · simp [SwitchNewGRFBlitter, hauto, hdepth, hsel, hne] at hret ⊢
      simp [← hret]
    · cases h1 : env.available repl_blitter <;>
        cases h2 : env.after_blitter_change repl_blitter 0 <;>
        cases h3 : env.available st.active <;>
        cases h4 : env.after_blitter_change st.active 1 <;>
        simp [SwitchNewGRFBlitter, hauto, hdepth, hsel, hne, h1, h2, h3, h4] at hret ⊢ <;>
        simp [← hret]
  | usererror e => simp [SwitchNewGRFBlitter, hauto, hdepth, hsel] at hret
  | assert_failed => simp [SwitchNewGRFBlitter, hauto, hdepth, hsel] at hret
  | out_of_bounds => simp [SwitchNewGRFBlitter, hauto, hdepth, hsel] at hret

/-- Instance of C10 on a plain switch from 8bpp-optimized to 32bpp-optimized. -/
theorem SwitchNewGRFBlitter_result_witness :
    (SwitchNewGRFBlitter plainEnv false ⟨true, "8bpp-optimized"⟩ true false false).result =
      .returned true ∧
    (SwitchNewGRFBlitter plainEnv false ⟨true, "8bpp-optimized"⟩ true false false).active =
      "32bpp-optimized" ∧
    ∃ name, BlitterCall.select name ∈
      (SwitchNewGRFBlitter plainEnv false ⟨true, "8bpp-optimized"⟩ true false false).calls :=
  ⟨by decide, by decide,
   (SwitchNewGRFBlitter_result plainEnv false ⟨true, "8bpp-optimized"⟩ true false false true
    (by decide)).1.mp rfl⟩

/-- C10, counterexample. The active blitter is 8bpp-optimized, the base set wants
32bpp, and the video driver does not adapt to 32bpp-optimized: the switch is rolled
back, so the active blitter after the call is the one from before the call, and yet
the call returns true. -/
theorem SwitchNewGRFBlitter_result_counterexample :
    (SwitchNewGRFBlitter rollbackEnv false ⟨true, "8bpp-optimized"⟩ true false false).result =
      .returned true ∧
    (SwitchNewGRFBlitter rollbackEnv false ⟨true, "8bpp-optimized"⟩ true false false).active =
      (⟨true, "8bpp-optimized"⟩ : BlitterState).active := by
  decide


/-! ## Decision table of the blitter selection -/

/-- C17. The priority scan of SelectNewGRFBlitter equals a closed decision table
over (base wants 32bpp b, content wants 32bpp g, animation wanted a). Without the
SSE entries: 8bpp-optimized if neither b nor g, else 32bpp-anim if a, else
32bpp-optimized. With the SSE entries: if b then (32bpp-sse4-anim if a else
32bpp-sse4), else if g then (32bpp-anim if a else 32bpp-optimized), else
8bpp-optimized. Hence in both builds 8bpp-optimized is returned exactly when neither
input wants 32bpp, with the SSE entries one of the four SSE blitters is returned
exactly when the base set wants 32bpp (without them none ever is), and 32bpp-ssse3
and 32bpp-sse2 are returned for no input. -/
theorem SelectNewGRFBlitter_decision_table (b g a : Bool) :
    SelectNewGRFBlitter false b g a =
      .returned (if !b && !g then "8bpp-optimized"
        else if a then "32bpp-anim" else "32bpp-optimized") ∧
    SelectNewGRFBlitter true b g a =
      .returned (if b then (if a then "32bpp-sse4-anim" else "32bpp-sse4")
        else if g then (if a then "32bpp-anim" else "32bpp-optimized")
        else "8bpp-optimized") ∧
    (∀ WITH_SSE, SelectNewGRFBlitter WITH_SSE b g a = .returned "8bpp-optimized" ↔
      (b = false ∧ g = false)) ∧
    (SelectNewGRFBlitter true b g a ∈
        [Outcome.returned "32bpp-sse4", .returned "32bpp-ssse3", .returned "32bpp-sse2",
         .returned "32bpp-sse4-anim"] ↔ b = true) ∧
    SelectNewGRFBlitter false b g a ∉
        [Outcome.returned "32bpp-sse4", .returned "32bpp-ssse3", .returned "32bpp-sse2",
         .returned "32bpp-sse4-anim"] ∧
    (∀ WITH_SSE, SelectNewGRFBlitter WITH_SSE b g a ≠ .returned "32bpp-ssse3" ∧
      SelectNewGRFBlitter WITH_SSE b g a ≠ .returned "32bpp-sse2") := by
  cases b <;> cases g <;> cases a <;> decide

/-! ## Failure boundary of sequential loading -/

theorem enum_calls_load_index (K : Nat) (file_index : Int) (container_ver : Nat)
    (l : List Nat) :
    (l.enum.map (fun p => (⟨K + p.1, file_index, p.1, container_ver, some p.2⟩ :
      SpriteCall))).map (fun c => c.load_index) = List.range' K l.length := by
  rw [List.range'_eq_map_range, ← List.enum_map_fst l, List.map_map, List.map_map]
  rfl

theorem enum_calls_record (K : Nat) (file_index : Int) (container_ver : Nat)
    (l : List Nat) :
    (l.enum.map (fun p => (⟨K + p.1, file_index, p.1, container_ver, some p.2⟩ :
      SpriteCall))).map (fun c => c.record) = l.map some := by
  conv_rhs => rw [← List.enum_map_snd l]
  rw [List.map_map, List.map_map]
  rfl

/-- C18. Exact failure boundary of sequential loading: for a start index K below
MAX_SPRITES and a file with an accepted header that supplies N records, LoadGrfFile
ends in the Too many sprites error if and only if K + N >= MAX_SPRITES, and returns
N otherwise; when it fails, exactly MAX_SPRITES - K calls were made, all of them
successful reads, of the first MAX_SPRITES - K records at the indices K, ...,
MAX_SPRITES - 1; in every case no index >= MAX_SPRITES is passed to the parser. In
particular a file with K + N = MAX_SPRITES, which would exactly fill the table up
to the last valid index MAX_SPRITES - 1, is rejected. -/
theorem LoadGrfFile_failure_boundary (MAX_SPRITES : Nat) (f : GrfFile) (K : Nat)
    (file_index : Int)
    (hver : f.container_ver ≠ 0) (hcomp : 2 ≤ f.container_ver → f.compression = 0)
    (hMAX : MAX_SPRITES < 2 ^ 32) (hK : K < MAX_SPRITES) :
    ((LoadGrfFile MAX_SPRITES f K file_index).result = .usererror .too_many_sprites ↔
      MAX_SPRITES ≤ K + f.records.length) ∧
    (K + f.records.length < MAX_SPRITES →
      (LoadGrfFile MAX_SPRITES f K file_index).result = .returned f.records.length) ∧
    (MAX_SPRITES ≤ K + f.records.length →
      (LoadGrfFile MAX_SPRITES f K file_index).calls.length = MAX_SPRITES - K ∧
      (LoadGrfFile MAX_SPRITES f K file_index).calls.map (fun c => c.load_index) =
        List.range' K (MAX_SPRITES - K) ∧
      (LoadGrfFile MAX_SPRITES f K file_index).calls.map (fun c => c.record) =
        (f.records.take (MAX_SPRITES - K)).map some) ∧
    (K + f.records.length = MAX_SPRITES →
      (LoadGrfFile MAX_SPRITES f K file_index).result = .usererror .too_many_sprites) ∧
    (∀ c ∈ (LoadGrfFile MAX_SPRITES f K file_index).calls, c.load_index < MAX_SPRITES) := by
  have hc : ¬ (f.container_ver ≥ 2 ∧ f.compression ≠ 0) := fun h => h.2 (hcomp h.1)
  by_cases hfit : K + f.records.length < MAX_SPRITES
  · have hl := LoadGrfFile.loop_fits MAX_SPRITES file_index f.container_ver K hMAX f.records 0
      (by omega)
    simp only [Nat.add_zero, Nat.zero_add] at hl
    have hr : (K + f.records.length + 2 ^ 32 - K) % 2 ^ 32 = f.records.length := by omega
    have hrun : LoadGrfFile MAX_SPRITES f K file_index =
        ⟨(f.records.enumFrom 0).map
            (fun p => ⟨K + p.1, file_index, p.1, f.container_ver, some p.2⟩) ++
          [⟨K + f.records.length, file_index, f.records.length, f.container_ver, none⟩],
         .returned f.records.length⟩ := by
      simp only [LoadGrfFile, hver, hc, if_false, hl, hr]
    rw [hrun]
    refine ⟨⟨fun h => by simp at h, fun h => by omega⟩, fun _ => rfl, fun h => by omega,
      fun h => by omega, ?_⟩
    intro c hc'
    simp only [List.mem_append, List.mem_map, List.mem_singleton] at hc'
    rcases hc' with ⟨p, hp, rfl⟩ | rfl
    · have hp1 := List.fst_lt_of_mem_enum hp
      show K + p.1 < MAX_SPRITES
      omega
    · show K + f.records.length < MAX_SPRITES
      exact hfit
  · have hover : MAX_SPRITES ≤ K + f.records.length := by omega
    have hl := LoadGrfFile.loop_overflow MAX_SPRITES file_index f.container_ver K hMAX
      f.records 0 (by omega) (by omega)
    simp only [Nat.add_zero] at hl
    have hrun : LoadGrfFile MAX_SPRITES f K file_index =
        ⟨(f.records.take (MAX_SPRITES - K)).enum.map
          (fun p => ⟨K + p.1, file_index, p.1, f.container_ver, some p.2⟩),
         .usererror .too_many_sprites⟩ := by
      simp only [LoadGrfFile, hver, hc, if_false, hl]
      rfl
    have htake : (f.records.take (MAX_SPRITES - K)).length = MAX_SPRITES - K := by
      simp only [List.length_take]
      omega
    rw [hrun]
    refine ⟨⟨fun _ => hover, fun _ => rfl⟩, fun h => by omega, fun _ => ⟨?_, ?_, ?_⟩,
      fun _ => rfl, ?_⟩
    · simp only [List.length_map, List.enum_length, htake]
    · rw [enum_calls_load_index, htake]
    · rw [enum_calls_record]
    · intro c hc'
      simp only [List.mem_map] at hc'
      obtain ⟨p, hp, rfl⟩ := hc'
      have hp1 := List.fst_lt_of_mem_enum hp
      rw [htake] at hp1
      show K + p.1 < MAX_SPRITES
      omega

/-- Instance of C18: two records from index MAX_SPRITES - 2 would exactly fill the
table up to the last valid index, and the load is rejected. -/
theorem LoadGrfFile_failure_boundary_witness :
    (LoadGrfFile 16777216 ⟨1, 0, [7, 8]⟩ 16777214 0).result =
      .usererror .too_many_sprites ∧
    (LoadGrfFile 16777216 ⟨1, 0, [7, 8]⟩ 16777214 0).calls.map (fun c => c.load_index) =
      [16777214, 16777215] ∧
    (LoadGrfFile 16777216 ⟨1, 0, [7, 8, 9]⟩ 16777212 0).result = .returned 3 :=
  ⟨(LoadGrfFile_failure_boundary 16777216 ⟨1, 0, [7, 8]⟩ 16777214 0 (by decide) (by decide)
      (by decide) (by decide)).2.2.2.1 (by decide),
   ((LoadGrfFile_failure_boundary 16777216 ⟨1, 0, [7, 8]⟩ 16777214 0 (by decide) (by decide)
      (by decide) (by decide)).2.2.1 (by decide)).2.1,
   (LoadGrfFile_failure_boundary 16777216 ⟨1, 0, [7, 8, 9]⟩ 16777212 0 (by decide) (by decide)
      (by decide) (by decide)).2.1 (by decide)⟩

/-! ## Indexed loading of ranges with start above end -/

/-- The inner loop of `LoadGrfFileIndexed` on any range whose start and end are
below the largest 32 bit value, with enough records in the file: it consumes
`end_ - start + 1` records, that is one record when `start` is above `end_`. -/
theorem LoadGrfFileIndexed.range_do_while (file_index : Int) (container_ver end_ : Nat)
    (hend : end_ < 2 ^ 32 - 1) :
    ∀ (records : List Nat) (start j : Nat), start < 2 ^ 32 - 1 →
      end_ - start + 1 ≤ records.length →
      LoadGrfFileIndexed.range file_index container_ver end_ records start (j % 2 ^ 32) =
        ⟨placedCalls file_index container_ver j (List.range' start (end_ - start + 1)) records,
         .returned (records.drop (end_ - start + 1), (j + (end_ - start + 1)) % 2 ^ 32)⟩
  | [], start, j, _, h => by simp at h
  | r :: rest, start, j, hs, h => by
    by_cases h3 : start ≤ end_
    · exact LoadGrfFileIndexed.range_exact file_index container_ver end_ hend (r :: rest)
        start j h3 h
    · have h1 : (start + 1) % 2 ^ 32 = start + 1 := by omega
      have h2 : (j % 2 ^ 32 + 1) % 2 ^ 32 = (j + 1) % 2 ^ 32 := by omega
      have h4 : ¬ (start + 1 ≤ end_) := by omega
      have hn1 : end_ - start + 1 = 1 := by omega
      simp only [LoadGrfFileIndexed.range, h1, h2, h4, if_false, hn1, List.range'_succ,
        List.range'_zero, placedCalls_cons, placedCalls_nil, List.drop_succ_cons, List.drop_zero]

/-- The table loop of `LoadGrfFileIndexed` on a table whose starts and ends are
below the largest 32 bit value, with enough records in the file. -/
theorem LoadGrfFileIndexed.loop_do_while (END : Nat) (file_index : Int) (container_ver : Nat) :
    ∀ (ranges : List (Nat × Nat)) (records : List Nat) (j : Nat),
      (∀ r ∈ ranges, r.1 ≠ END ∧ r.1 < 2 ^ 32 - 1 ∧ r.2 < 2 ^ 32 - 1) →
      rangeTotal ranges ≤ records.length →
      LoadGrfFileIndexed.loop END file_index container_ver (rangeTable END ranges) records
          (j % 2 ^ 32) =
        ⟨placedCalls file_index container_ver j (rangeSlots ranges) records, .returned ()⟩
  | [], records, j, _, _ => by
    simp [rangeTable, LoadGrfFileIndexed.loop, rangeSlots, placedCalls_nil]
  | r :: rs, records, j, hwf, htot => by
    obtain ⟨hE, hs, hmax⟩ := hwf r (List.mem_cons_self _ _)
    have htot1 : r.2 - r.1 + 1 + rangeTotal rs ≤ records.length := by
      simpa [rangeTotal] using htot
    have hin := LoadGrfFileIndexed.range_do_while file_index container_ver r.2 hmax records
      r.1 j hs (by omega)
    have ih := LoadGrfFileIndexed.loop_do_while END file_index container_ver rs
      (records.drop (r.2 - r.1 + 1)) (j + (r.2 - r.1 + 1))
      (fun x hx => hwf x (List.mem_cons_of_mem _ hx)) (by simp; omega)
    have happ := placedCalls_append file_index container_ver (rangeSlots rs)
      (List.range' r.1 (r.2 - r.1 + 1)) records j (by simp; omega)
    simp only [List.length_range'] at happ
    have hslots : rangeSlots (r :: rs) = List.range' r.1 (r.2 - r.1 + 1) ++ rangeSlots rs := by
      simp [rangeSlots]
    rw [rangeTable_cons, hslots, happ]
    simp only [LoadGrfFileIndexed.loop, hE, if_false, hin, ih]

theorem placedCalls_isSome (file_index : Int) (container_ver j : Nat) (slots records : List Nat) :
    ∀ c ∈ placedCalls file_index container_ver j slots records, c.record.isSome = true := by
  intro c hc
  simp only [placedCalls, List.mem_map] at hc
  obtain ⟨p, _, rfl⟩ := hc
  rfl

/-- C19 (amended). Indexed mode on ranges with start above end: for a range table
whose starts differ from END and whose starts and ends are below the largest 32 bit
value, and a file with an accepted header and enough records, LoadGrfFileIndexed
consumes for each range (s,e) exactly max(1, e - s + 1) records and places them at
s, s + 1, ... in table order before it goes on to the next range; a range with
s > e takes exactly one record, placed at slot s. The slots are not compared with
any capacity: if a range starts at or above a bound MAX_SPRITES, a record is still
written at a slot at or above that bound and the run returns normally. -/
theorem LoadGrfFileIndexed_do_while (END : Nat) (f : GrfFile) (ranges : List (Nat × Nat))
    (file_index : Int)
    (hver : f.container_ver ≠ 0) (hcomp : 2 ≤ f.container_ver → f.compression = 0)
    (hwf : ∀ r ∈ ranges, r.1 ≠ END ∧ r.1 < 2 ^ 32 - 1 ∧ r.2 < 2 ^ 32 - 1)
    (hrec : rangeTotal ranges ≤ f.records.length) :
    (LoadGrfFileIndexed END f (rangeTable END ranges) file_index).result = .returned () ∧
    (LoadGrfFileIndexed END f (rangeTable END ranges) file_index).calls =
      placedCalls file_index f.container_ver 0
        (ranges.flatMap (fun r => List.range' r.1 (r.2 - r.1 + 1))) f.records ∧
    (LoadGrfFileIndexed END f (rangeTable END ranges) file_index).calls.map
      (fun c => c.load_index) = ranges.flatMap (fun r => List.range' r.1 (r.2 - r.1 + 1)) ∧
    (LoadGrfFileIndexed END f (rangeTable END ranges) file_index).calls.length =
      (ranges.map (fun r => r.2 - r.1 + 1)).sum ∧
    (∀ r ∈ ranges, ((r.2 - r.1 + 1 : Nat) : Int) = max 1 ((r.2 : Int) - (r.1 : Int) + 1)) ∧
    (∀ r ∈ ranges, r.2 < r.1 → List.range' r.1 (r.2 - r.1 + 1) = [r.1]) ∧
    (∀ MAX_SPRITES, (∃ r ∈ ranges, MAX_SPRITES ≤ r.1) →
      ∃ c ∈ (LoadGrfFileIndexed END f (rangeTable END ranges) file_index).calls,
        MAX_SPRITES ≤ c.load_index ∧ c.record.isSome = true) := by
  have hc : ¬ (f.container_ver ≥ 2 ∧ f.compression ≠ 0) := fun h => h.2 (hcomp h.1)
  have hl := LoadGrfFileIndexed.loop_do_while END file_index f.container_ver ranges
    f.records 0 hwf hrec
  have hlen : (rangeSlots ranges).length ≤ f.records.length := by
    rw [rangeSlots_length]; exact hrec
  have hrun : LoadGrfFileIndexed END f (rangeTable END ranges) file_index =
      ⟨placedCalls file_index f.container_ver 0 (rangeSlots ranges) f.records,
        .returned ()⟩ := by
    simp only [LoadGrfFileIndexed, hver, hc, if_false]
    exact hl
  have hidx := placedCalls_load_index file_index f.container_ver (rangeSlots ranges)
    f.records 0 hlen
  rw [hrun]
  refine ⟨rfl, rfl, hidx, ?_, ?_, ?_, ?_⟩
  · rw [placedCalls_length _ _ _ _ _ hlen, rangeSlots_length]
    rfl
  · intro r _
    omega
  · intro r _ hlt
    have e1 : r.2 - r.1 + 1 = 1 := by omega
    rw [e1]
    rfl
  · rintro M ⟨r, hr, hM⟩
    have hmem : r.1 ∈ rangeSlots ranges := by
      simp only [rangeSlots, List.mem_flatMap]
      exact ⟨r, hr, by simp [List.mem_range']⟩
    rw [← hidx, List.mem_map] at hmem
    obtain ⟨c, hc1, hc2⟩ := hmem
    exact ⟨c, hc1, by rw [hc2]; exact hM, placedCalls_isSome _ _ _ _ _ c hc1⟩

/-- Instance of C19 (amended): the range (20, 10) takes one record, placed at slot
20, and the next range places a record at slot 16777216. -/
theorem LoadGrfFileIndexed_do_while_witness :
    (LoadGrfFileIndexed 65535 ⟨2, 0, [7, 8, 9]⟩
      (rangeTable 65535 [(20, 10), (16777216, 16777216)]) 2).result = .returned () ∧
    (LoadGrfFileIndexed 65535 ⟨2, 0, [7, 8, 9]⟩
      (rangeTable 65535 [(20, 10), (16777216, 16777216)]) 2).calls =
      [⟨20, 2, 0, 2, some 7⟩, ⟨16777216, 2, 1, 2, some 8⟩] :=
  let h := LoadGrfFileIndexed_do_while 65535 ⟨2, 0, [7, 8, 9]⟩
    [(20, 10), (16777216, 16777216)] 2 (by decide) (by decide) (by decide) (by decide)
  ⟨h.1, h.2.1⟩

/-- C19, counterexample. The range (4294967295, 5) has start above end and its end is
below the largest 32 bit value; the increment of `start` wraps to 0, which is not
above 5, so the loader reads seven records (slots 4294967295, 0, 1, 2, 3, 4, 5) for
this range instead of one. -/
theorem LoadGrfFileIndexed_do_while_counterexample :
    (LoadGrfFileIndexed 65535 ⟨1, 0, [1, 2, 3, 4, 5, 6, 7, 8]⟩
      (rangeTable 65535 [(4294967295, 5)]) 0).result = .returned () ∧
    (LoadGrfFileIndexed 65535 ⟨1, 0, [1, 2, 3, 4, 5, 6, 7, 8]⟩
      (rangeTable 65535 [(4294967295, 5)]) 0).calls.map (fun c => (c.load_index, c.record)) =
      [(4294967295, some 1), (0, some 2), (1, some 3), (2, some 4), (3, some 5),
       (4, some 6), (5, some 7)] := by
  decide

/-! ## The content-wants-32bpp input of the blitter selection -/

theorem SelectNewGRFBlitter.grf_loop_iff (k : NewGRFConstants) :
    ∀ (grfconfig : List GRFConfig),
      SelectNewGRFBlitter.grf_loop k grfconfig = true ↔
        ∃ c ∈ grfconfig, c.status ≠ k.GCS_DISABLED ∧ c.status ≠ k.GCS_NOT_FOUND ∧
          HasBit c.flags k.GCF_INIT_ONLY = false ∧ c.palette &&& k.GRFP_BLT_32BPP ≠ 0
  | [] => by simp [SelectNewGRFBlitter.grf_loop]
  | c :: next => by
    have ih := SelectNewGRFBlitter.grf_loop_iff k next
    simp only [SelectNewGRFBlitter.grf_loop, List.exists_mem_cons_iff]
    by_cases h1 : c.status = k.GCS_DISABLED ∨ c.status = k.GCS_NOT_FOUND ∨
        HasBit c.flags k.GCF_INIT_ONLY = true
    · rw [if_pos h1, ih]
      constructor
      · exact fun h => Or.inr h
      · rintro (⟨h2, h3, h4, _⟩ | h)
        · rcases h1 with h1 | h1 | h1
          · exact absurd h1 h2
          · exact absurd h1 h3
          · rw [h4] at h1; cases h1
        · exact h
    · rw [if_neg h1]
      have h2 : c.status ≠ k.GCS_DISABLED := fun h => h1 (Or.inl h)
      have h3 : c.status ≠ k.GCS_NOT_FOUND := fun h => h1 (Or.inr (Or.inl h))
      have h4 : HasBit c.flags k.GCF_INIT_ONLY = false := by
        cases hb : HasBit c.flags k.GCF_INIT_ONLY
        · rfl
        · exact absurd (Or.inr (Or.inr hb)) h1
      by_cases h5 : c.palette &&& k.GRFP_BLT_32BPP ≠ 0
      · rw [if_pos h5]
        exact ⟨fun _ => Or.inl ⟨h2, h3, h4, h5⟩, fun _ => rfl⟩
      · rw [if_neg h5, ih]
        constructor
        · exact fun h => Or.inr h
        · rintro (⟨_, _, _, h6⟩ | h)
          · exact absurd h6 h5
          · exact h

/-- C11. Input (b) of the selector: the flag grf_wants_32bpp computed in
SelectNewGRFBlitter is true if and only if 8bpp support is disabled (_support8bpp
equals S8BPP_NONE) or the list _grfconfig has an entry whose status is neither
GCS_DISABLED nor GCS_NOT_FOUND, whose GCF_INIT_ONLY flag is clear and whose palette
has the GRFP_BLT_32BPP bit set; the loop with its early exit equals this existential
over the whole list, for every list. -/
theorem grf_wants_32bpp_iff (k : NewGRFConstants) (support8bpp : Nat)
    (grfconfig : List GRFConfig) :
    SelectNewGRFBlitter.grf_wants_32bpp k support8bpp grfconfig = true ↔
      (support8bpp = k.S8BPP_NONE ∨
        ∃ c ∈ grfconfig, c.status ≠ k.GCS_DISABLED ∧ c.status ≠ k.GCS_NOT_FOUND ∧
          HasBit c.flags k.GCF_INIT_ONLY = false ∧ c.palette &&& k.GRFP_BLT_32BPP ≠ 0) := by
  unfold SelectNewGRFBlitter.grf_wants_32bpp
  by_cases h : support8bpp = k.S8BPP_NONE
  · simp [h]
  · rw [if_neg h, SelectNewGRFBlitter.grf_loop_iff]
    simp [h]

/-! ## The checksum of a file -/

theorem fread_len_pos_le (split : Nat → Nat) (call avail request : Nat)
    (h : fread_len split call avail request ≠ 0) :
    1 ≤ fread_len split call avail request ∧
    fread_len split call avail request ≤ min request avail := by
  unfold fread_len at h ⊢
  split
  · simp_all
  · omega

theorem fread_len_eq_zero (split : Nat → Nat) (call avail request : Nat)
    (h : fread_len split call avail request = 0) : request = 0 ∨ avail = 0 := by
  unfold fread_len at h
  split at h
  · omega
  · omega

/-- The chunks read by the loop of `check_md5` concatenate to the first `size` bytes
of the stream (to the whole stream when it is shorter), and every chunk has between
1 and 1024 bytes. -/
theorem check_md5.loop_flatten (split : Nat → Nat) :
    ∀ (size call : Nat) (stream : List Nat),
      (check_md5.loop split call stream size).flatten = stream.take size ∧
      ∀ c ∈ check_md5.loop split call stream size, 1 ≤ c.length ∧ c.length ≤ 1024 := by
  intro size
  induction size using Nat.strong_induction_on with
  | _ size ih =>
    intro call stream
    rw [check_md5.loop]
    by_cases h0 : size = 0
    · simp [h0]
    · simp only [h0, if_false]
      by_cases hl : fread_len split call stream.length (min size 1024) = 0
      · simp only [hl, if_true, List.flatten_nil, List.not_mem_nil, false_implies,
          implies_true, and_true]
        have := fread_len_eq_zero split call stream.length (min size 1024) hl
        have hs : stream = [] := List.eq_nil_of_length_eq_zero (by omega)
        simp [hs]
      · simp only [hl, if_false]
        obtain ⟨h1, h2⟩ := fread_len_pos_le split call stream.length (min size 1024) hl
        generalize fread_len split call stream.length (min size 1024) = len at h1 h2 hl
        obtain ⟨ih1, ih2⟩ := ih (size - len) (by omega) (call + 1) (stream.drop len)
        constructor
        · rw [List.flatten_cons, ih1]
          have hsz : size = len + (size - len) := by omega
          conv_rhs => rw [hsz, List.take_add]
        · intro c hc
          rcases List.mem_cons.1 hc with rfl | hc
          · simp only [List.length_take]
            omega
          · exact ih2 c hc

/-- The result of `check_md5` is the comparison of the hash with the digest of the
first `size` bytes of the stream, for every split of the reads. -/
theorem check_md5_iff (md5 : List Nat → List Nat) (split : Nat → Nat) (stream : List Nat)
    (hash : List Nat) (size : Nat) :
    check_md5 md5 split stream hash size = true ↔
      hash.take 16 = (md5 (stream.take size)).take 16 := by
  simp only [check_md5, (check_md5.loop_flatten split size 0 stream).1, decide_eq_true_eq]

/-- C12. Chunked digest in check_md5: for every stream content s, every bound n and
every way the reads are split, the loop terminates (the embedding is a total
function), every chunk has between 1 and 1024 bytes, the chunks appended to the MD5
state concatenate to exactly the first min(n, |s|) bytes of s in order, and the
result is true if and only if the digest of that prefix equals the expected 16 byte
hash; the result does not depend on how the reads were split. -/
theorem check_md5_chunked (md5 : List Nat → List Nat) (split : Nat → Nat) (s : List Nat)
    (hash : List Nat) (n : Nat) :
    (check_md5.loop split 0 s n).flatten = s.take (min n s.length) ∧
    (∀ c ∈ check_md5.loop split 0 s n, 1 ≤ c.length ∧ c.length ≤ 1024) ∧
    (check_md5 md5 split s hash n = true ↔
      hash.take 16 = (md5 (s.take (min n s.length))).take 16) ∧
    (∀ split2 : Nat → Nat, check_md5 md5 split2 s hash n = check_md5 md5 split s hash n) := by
  have htake : s.take (min n s.length) = s.take n := by
    rw [List.take_eq_take]
    omega
  have h := fun sp => (check_md5.loop_flatten sp n 0 s).1
  refine ⟨by rw [htake]; exact h split, (check_md5.loop_flatten split n 0 s).2, ?_, ?_⟩
  · simp only [check_md5, h split, htake, decide_eq_true_eq]
  · intro split2
    simp only [check_md5, h split, h split2]

theorem GraphicsSet.CheckMD5_eq (md5 : List Nat → List Nat)
    (GRFGetSizeOfDataSection : List Nat → Nat) (fs : String → Option (List Nat))
    (split : Nat → Nat) (file : MD5File) (content : List Nat)
    (hopen : fs file.filename = some content) :
    GraphicsSet.CheckMD5 md5 GRFGetSizeOfDataSection fs split file =
      if file.hash.take 16 =
          (md5 (content.take (min content.length (GRFGetSizeOfDataSection content)))).take 16
      then .CR_MATCH else .CR_MISMATCH := by
  have h := check_md5_iff md5 split content file.hash
    (min content.length (GRFGetSizeOfDataSection content))
  simp only [GraphicsSet.CheckMD5, hopen]
  by_cases hm : file.hash.take 16 =
      (md5 (content.take (min content.length (GRFGetSizeOfDataSection content)))).take 16
  · rw [if_pos hm, h.2 hm]
    rfl
  · rw [if_neg hm]
    have : check_md5 md5 split content file.hash
        (min content.length (GRFGetSizeOfDataSection content)) = false := by
      cases hb : check_md5 md5 split content file.hash
        (min content.length (GRFGetSizeOfDataSection content))
      · rfl
      · exact absurd (h.1 hb) hm
    rw [this]
    rfl

theorem MD5File.CheckMD5_whole_eq (md5 : List Nat → List Nat) (fs : String → Option (List Nat))
    (split : Nat → Nat) (file : MD5File) (content : List Nat)
    (hopen : fs file.filename = some content) :
    MD5File.CheckMD5 md5 fs split file =
      if file.hash.take 16 = (md5 content).take 16 then .CR_MATCH else .CR_MISMATCH := by
  have h := check_md5_iff md5 split content file.hash content.length
  rw [List.take_length] at h
  simp only [MD5File.CheckMD5, hopen]
  by_cases hm : file.hash.take 16 = (md5 content).take 16
  · rw [if_pos hm, h.2 hm]
    rfl
  · rw [if_neg hm]
    have : check_md5 md5 split content file.hash content.length = false := by
      cases hb : check_md5 md5 split content file.hash content.length
      · rfl
      · exact absurd (h.1 hb) hm
    rw [this]
    rfl

/-- The result of `GraphicsSet::CheckMD5` in closed form, for every split of the
reads. -/
theorem GraphicsSet.CheckMD5_closed (md5 : List Nat → List Nat)
    (GRFGetSizeOfDataSection : List Nat → Nat) (fs : String → Option (List Nat))
    (split : Nat → Nat) :
    GraphicsSet.CheckMD5 md5 GRFGetSizeOfDataSection fs split =
      fun file =>
        match fs file.filename with
        | none => .CR_NO_FILE
        | some content =>
          if file.hash.take 16 =
            (md5 (content.take (min content.length (GRFGetSizeOfDataSection content)))).take 16
          then .CR_MATCH else .CR_MISMATCH := by
  funext file
  cases hopen : fs file.filename with
  | none => simp [GraphicsSet.CheckMD5, hopen]
  | some content =>
    exact GraphicsSet.CheckMD5_eq md5 GRFGetSizeOfDataSection fs split file content hopen

/-- C13. Trailing metadata does not affect the graphics hash check: for two files
that can be opened, that declare the same data section size d and whose first
min(d, file size) bytes are identical, GraphicsSet::CheckMD5 returns the same result
against the same expected hash, whatever bytes follow and however the reads are
split; the bytes hashed are exactly the first min(file size, d) bytes of the file,
from offset 0. -/
theorem CheckMD5_trailing_bytes (md5 : List Nat → List Nat)
    (GRFGetSizeOfDataSection : List Nat → Nat) (fs1 fs2 : String → Option (List Nat))
    (split1 split2 : Nat → Nat) (file1 file2 : MD5File) (content1 content2 : List Nat)
    (d : Nat)
    (hopen1 : fs1 file1.filename = some content1) (hopen2 : fs2 file2.filename = some content2)
    (hd1 : GRFGetSizeOfDataSection content1 = d) (hd2 : GRFGetSizeOfDataSection content2 = d)
    (hhash : file1.hash = file2.hash)
    (hsame : content1.take (min d content1.length) = content2.take (min d content2.length)) :
    GraphicsSet.CheckMD5 md5 GRFGetSizeOfDataSection fs1 split1 file1 =
      GraphicsSet.CheckMD5 md5 GRFGetSizeOfDataSection fs2 split2 file2 ∧
    (check_md5.loop split1 0 content1 (min content1.length d)).flatten =
      content1.take (min content1.length d) ∧
    (GraphicsSet.CheckMD5 md5 GRFGetSizeOfDataSection fs1 split1 file1 = .CR_MATCH ↔
      file1.hash.take 16 = (md5 (content1.take (min content1.length d))).take 16) := by
  have e1 := GraphicsSet.CheckMD5_eq md5 GRFGetSizeOfDataSection fs1 split1 file1 content1 hopen1
  have e2 := GraphicsSet.CheckMD5_eq md5 GRFGetSizeOfDataSection fs2 split2 file2 content2 hopen2
  rw [hd1] at e1
  rw [hd2] at e2
  have hsame2 : content1.take (min content1.length d) = content2.take (min content2.length d) := by
    rw [Nat.min_comm content1.length, Nat.min_comm content2.length]
    exact hsame
  refine ⟨?_, ?_, ?_⟩
  · rw [e1, e2, hhash, hsame2]
  · exact (check_md5.loop_flatten split1 (min content1.length d) 0 content1).1
  · rw [e1]
    by_cases hm : file1.hash.take 16 = (md5 (content1.take (min content1.length d))).take 16
    · simp [hm]
    · simp [hm]

/-- Instance of C13: `a.grf` and `b.grf` declare a data section of 3 bytes, agree on
their first 3 bytes and differ after them. -/
theorem CheckMD5_trailing_bytes_witness :
    GraphicsSet.CheckMD5 toyDigest firstByteSize exampleFiles (fun _ => 1024)
        ⟨"a.grf", [3, 1, 2], "missing a"⟩ =
      GraphicsSet.CheckMD5 toyDigest firstByteSize exampleFiles (fun _ => 1)
        ⟨"b.grf", [3, 1, 2], "missing b"⟩ ∧
    GraphicsSet.CheckMD5 toyDigest firstByteSize exampleFiles (fun _ => 1024)
        ⟨"a.grf", [3, 1, 2], "missing a"⟩ = .CR_MATCH :=
  let h := CheckMD5_trailing_bytes toyDigest firstByteSize exampleFiles exampleFiles
    (fun _ => 1024) (fun _ => 1) ⟨"a.grf", [3, 1, 2], "missing a"⟩
    ⟨"b.grf", [3, 1, 2], "missing b"⟩ [3, 1, 2, 9, 9] [3, 1, 2, 7] 3
    (by decide) (by decide) (by decide) (by decide) (by decide) (by decide)
  ⟨h.1, h.2.2.2 (by decide)⟩

/-- C14. Result classification of the checksum verifier: GraphicsSet::CheckMD5 and
MD5File::CheckMD5 return CR_NO_FILE if and only if the file cannot be opened; for a
file that can be opened they return CR_MATCH if and only if the digest of the
checked byte range (the first min(file size, data section size) bytes for
GraphicsSet::CheckMD5, the whole file for MD5File::CheckMD5) equals the expected
hash, and CR_MISMATCH if and only if it does not. -/
theorem CheckMD5_classification (md5 : List Nat → List Nat)
    (GRFGetSizeOfDataSection : List Nat → Nat) (fs : String → Option (List Nat))
    (split : Nat → Nat) (file : MD5File) :
    (GraphicsSet.CheckMD5 md5 GRFGetSizeOfDataSection fs split file = .CR_NO_FILE ↔
      fs file.filename = none) ∧
    (MD5File.CheckMD5 md5 fs split file = .CR_NO_FILE ↔ fs file.filename = none) ∧
    (∀ content, fs file.filename = some content →
      (GraphicsSet.CheckMD5 md5 GRFGetSizeOfDataSection fs split file = .CR_MATCH ↔
        file.hash.take 16 = (md5 (content.take
          (min content.length (GRFGetSizeOfDataSection content)))).take 16) ∧
      (GraphicsSet.CheckMD5 md5 GRFGetSizeOfDataSection fs split file = .CR_MISMATCH ↔
        file.hash.take 16 ≠ (md5 (content.take
          (min content.length (GRFGetSizeOfDataSection content)))).take 16) ∧
      (MD5File.CheckMD5 md5 fs split file = .CR_MATCH ↔
        file.hash.take 16 = (md5 content).take 16) ∧
      (MD5File.CheckMD5 md5 fs split file = .CR_MISMATCH ↔
        file.hash.take 16 ≠ (md5 content).take 16)) := by
  refine ⟨?_, ?_, ?_⟩
  · cases hopen : fs file.filename with
    | none => simp [GraphicsSet.CheckMD5, hopen]
    | some content =>
      rw [GraphicsSet.CheckMD5_eq md5 GRFGetSizeOfDataSection fs split file content hopen]
      split <;> simp
  · cases hopen : fs file.filename with
    | none => simp [MD5File.CheckMD5, hopen]
    | some content =>
      rw [MD5File.CheckMD5_whole_eq md5 fs split file content hopen]
      split <;> simp
  · intro content hopen
    rw [GraphicsSet.CheckMD5_eq md5 GRFGetSizeOfDataSection fs split file content hopen,
      MD5File.CheckMD5_whole_eq md5 fs split file content hopen]
    refine ⟨?_, ?_, ?_, ?_⟩ <;> split <;> simp_all

/-- Instance of C14: `a.grf` matches on its data section and differs as a whole
file, `c.grf` differs, `d.grf` cannot be opened. -/
theorem CheckMD5_classification_witness :
    GraphicsSet.CheckMD5 toyDigest firstByteSize exampleFiles (fun _ => 2)
      ⟨"a.grf", [3, 1, 2], "missing a"⟩ = .CR_MATCH ∧
    MD5File.CheckMD5 toyDigest exampleFiles (fun _ => 2)
      ⟨"a.grf", [3, 1, 2], "missing a"⟩ = .CR_MISMATCH ∧
    GraphicsSet.CheckMD5 toyDigest firstByteSize exampleFiles (fun _ => 2)
      ⟨"c.grf", [3, 1, 2], "missing c"⟩ = .CR_MISMATCH ∧
    GraphicsSet.CheckMD5 toyDigest firstByteSize exampleFiles (fun _ => 2)
      ⟨"d.grf", [3, 1, 2], "missing d"⟩ = .CR_NO_FILE :=
  ⟨((CheckMD5_classification toyDigest firstByteSize exampleFiles (fun _ => 2)
      ⟨"a.grf", [3, 1, 2], "missing a"⟩).2.2 [3, 1, 2, 9, 9] (by decide)).1.2 (by decide),
   ((CheckMD5_classification toyDigest firstByteSize exampleFiles (fun _ => 2)
      ⟨"a.grf", [3, 1, 2], "missing a"⟩).2.2 [3, 1, 2, 9, 9] (by decide)).2.2.2.2 (by decide),
   ((CheckMD5_classification toyDigest firstByteSize exampleFiles (fun _ => 2)
      ⟨"c.grf", [3, 1, 2], "missing c"⟩).2.2 [3, 1, 4] (by decide)).2.1.2 (by decide),
   (CheckMD5_classification toyDigest firstByteSize exampleFiles (fun _ => 2)
      ⟨"d.grf", [3, 1, 2], "missing d"⟩).1.2 (by decide)⟩

/-! ## The report on an incomplete graphics set -/

theorem string_join_cons (a : String) (l : List String) :
    String.join (a :: l) = a ++ String.join l := by
  apply String.ext
  simp [String.data_join]

theorem sstring_append_fits (capacity : Nat) (buffer text : String)
    (h : (buffer ++ text).length ≤ capacity - 1) :
    sstring_append capacity buffer text = buffer ++ text := by
  unfold sstring_append
  apply String.ext
  exact List.take_of_length_le h

theorem reportLines_cons (check : MD5File → ChecksumResult) (file : MD5File)
    (files : List MD5File) :
    reportLines check (file :: files) =
      if check file ≠ .CR_MATCH then reportLine file (check file) :: reportLines check files
      else reportLines check files := by
  unfold reportLines
  by_cases h : check file ≠ .CR_MATCH
  · simp [List.filter_cons, h]
  · simp [List.filter_cons, h]

/-- The loop of `BaseGraphics::SetSet` appends the lines of the report to the text
that `error_msg` holds, as long as the whole text fits the buffer. -/
theorem BaseGraphics.SetSet.loop_report (md5 : List Nat → List Nat)
    (GRFGetSizeOfDataSection : List Nat → Nat) (fs : String → Option (List Nat))
    (split : Nat → Nat) :
    ∀ (files : List MD5File) (error_msg : String),
      (error_msg ++ String.join (reportLines
        (GraphicsSet.CheckMD5 md5 GRFGetSizeOfDataSection fs split) files)).length ≤ 1023 →
      BaseGraphics.SetSet.loop md5 GRFGetSizeOfDataSection fs split files error_msg =
        error_msg ++ String.join (reportLines
          (GraphicsSet.CheckMD5 md5 GRFGetSizeOfDataSection fs split) files)
  | [], error_msg, _ => by simp [BaseGraphics.SetSet.loop, reportLines, String.join]
  | file :: files, error_msg, h => by
    rw [reportLines_cons] at h ⊢
    simp only [BaseGraphics.SetSet.loop]
    by_cases hres : GraphicsSet.CheckMD5 md5 GRFGetSizeOfDataSection fs split file ≠ .CR_MATCH
    · rw [if_pos hres] at h ⊢
      rw [if_pos hres]
      rw [string_join_cons, ← String.append_assoc] at h ⊢
      have hline : (error_msg ++ reportLine file
          (GraphicsSet.CheckMD5 md5 GRFGetSizeOfDataSection fs split file)).length ≤
          1024 - 1 := by
        rw [String.length_append] at h
        omega
      have hfit := sstring_append_fits 1024 error_msg _ hline
      have hl : "\t" ++ file.filename ++ " is " ++
          (if GraphicsSet.CheckMD5 md5 GRFGetSizeOfDataSection fs split file = .CR_MISMATCH
            then "corrupt" else "missing") ++ " (" ++ file.missing_warning ++ ")\n" =
          reportLine file (GraphicsSet.CheckMD5 md5 GRFGetSizeOfDataSection fs split file) := rfl
      rw [hl, hfit]
      exact BaseGraphics.SetSet.loop_report md5 GRFGetSizeOfDataSection fs split files _ h
    · rw [if_neg hres] at h ⊢
      rw [if_neg hres]
      exact BaseGraphics.SetSet.loop_report md5 GRFGetSizeOfDataSection fs split files _ h

/-- C15. Incompleteness report of BaseGraphics::SetSet: for a used graphics set with
a non-zero invalid-file count whose file list fits the buffer of 1024 bytes, the
call returns true and the file list of the report is, in file order, exactly one
line (tab, file name, is, label, hint in brackets, newline) for each file whose
CheckMD5 result is not CR_MATCH and no line for a matching file; the label of a
listed file is corrupt exactly when the result is CR_MISMATCH and missing exactly
when it is CR_NO_FILE. -/
theorem SetSet_report (md5 : List Nat → List Nat)
    (GRFGetSizeOfDataSection : List Nat → Nat) (fs : String → Option (List Nat))
    (split : Nat → Nat) (used_set : GraphicsSet)
    (hinv : used_set.num_invalid ≠ 0)
    (hfit : (String.join (reportLines
      (GraphicsSet.CheckMD5 md5 GRFGetSizeOfDataSection fs split) used_set.files)).length ≤
        1023) :
    BaseGraphics.SetSet md5 GRFGetSizeOfDataSection fs split true (some used_set) =
      (true, some (used_set.name,
        String.join ((used_set.files.filter (fun f => decide
          (GraphicsSet.CheckMD5 md5 GRFGetSizeOfDataSection fs split f ≠ .CR_MATCH))).map
          (fun f => "\t" ++ f.filename ++ " is " ++
            reportLabel (GraphicsSet.CheckMD5 md5 GRFGetSizeOfDataSection fs split f) ++
            " (" ++ f.missing_warning ++ ")\n")))) ∧
    (∀ res : ChecksumResult, res ≠ .CR_MATCH →
      (reportLabel res = "corrupt" ↔ res = .CR_MISMATCH) ∧
      (reportLabel res = "missing" ↔ res = .CR_NO_FILE)) := by
  constructor
  · have h := BaseGraphics.SetSet.loop_report md5 GRFGetSizeOfDataSection fs split
      used_set.files "" (by rw [String.empty_append]; exact hfit)
    rw [String.empty_append] at h
    simp only [BaseGraphics.SetSet, Bool.not_true, Bool.false_eq_true, if_false, hinv,
      ne_eq, not_false_eq_true, if_true, h]
    rfl
  · intro res hres
    cases res
    · exact absurd rfl hres
    · decide
    · decide

/-- Instance of C15: a set of six files of which one is corrupt and one is missing
yields exactly these two lines. -/
theorem SetSet_report_witness :
    BaseGraphics.SetSet toyDigest firstByteSize exampleFiles (fun _ => 2) true
        (some exampleSet) =
      (true, some ("example",
        "\tc.grf is corrupt (hint 2)\n\td.grf is missing (hint 5)\n")) := by
  have h := (SetSet_report toyDigest firstByteSize exampleFiles (fun _ => 2) exampleSet
    (by decide) (by rw [GraphicsSet.CheckMD5_closed]; decide)).1
  rw [GraphicsSet.CheckMD5_closed] at h
  rw [h]
  decide

/-! ## The loads of the sprite tables -/

/-- C16. Regional variant selection in LoadSpriteTables, on a run in which every
load returns: for the temperate landscape no regional file is loaded and the extra
pseudo NewGRF is loaded at file slot FIRST_GRF_SLOT + 2; for each other landscape L
(arctic = 1, tropic = 2, toyland = 3) exactly one indexed load is done, at file slot
FIRST_GRF_SLOT + 2, of the file with role GFT_ARCTIC + L - 1 (named arctic,
tropical, toyland) with the range table of that same climate, and the extra pseudo
NewGRF is then loaded at slot FIRST_GRF_SLOT + 3; in every case base is loaded
sequentially from index 0 at FIRST_GRF_SLOT and logos from index 4793 at
FIRST_GRF_SLOT + 1. -/
theorem LoadSpriteTables_loads (exec : LoadOp → Outcome Unit)
    (FIRST_GRF_SLOT SPR_NEWGRFS_BASE : Nat) (arctic tropic toyland : List Nat)
    (hexec : ∀ op, exec op = .returned ()) (hslot : FIRST_GRF_SLOT + 3 < 2 ^ 32) :
    LoadSpriteTables exec FIRST_GRF_SLOT SPR_NEWGRFS_BASE arctic tropic toyland LT_TEMPERATE =
      ⟨[.LoadGrfFile GFT_BASE 0 FIRST_GRF_SLOT,
        .LoadGrfFile GFT_LOGOS 4793 (FIRST_GRF_SLOT + 1),
        .LoadNewGRF GFT_EXTRA SPR_NEWGRFS_BASE (FIRST_GRF_SLOT + 2)], .returned ()⟩ ∧
    LoadSpriteTables exec FIRST_GRF_SLOT SPR_NEWGRFS_BASE arctic tropic toyland 1 =
      ⟨[.LoadGrfFile GFT_BASE 0 FIRST_GRF_SLOT,
        .LoadGrfFile GFT_LOGOS 4793 (FIRST_GRF_SLOT + 1),
        .LoadGrfFileIndexed (GFT_ARCTIC + 1 - 1) arctic (FIRST_GRF_SLOT + 2),
        .LoadNewGRF GFT_EXTRA SPR_NEWGRFS_BASE (FIRST_GRF_SLOT + 3)], .returned ()⟩ ∧
    LoadSpriteTables exec FIRST_GRF_SLOT SPR_NEWGRFS_BASE arctic tropic toyland 2 =
      ⟨[.LoadGrfFile GFT_BASE 0 FIRST_GRF_SLOT,
        .LoadGrfFile GFT_LOGOS 4793 (FIRST_GRF_SLOT + 1),
        .LoadGrfFileIndexed (GFT_ARCTIC + 2 - 1) tropic (FIRST_GRF_SLOT + 2),
        .LoadNewGRF GFT_EXTRA SPR_NEWGRFS_BASE (FIRST_GRF_SLOT + 3)], .returned ()⟩ ∧
    LoadSpriteTables exec FIRST_GRF_SLOT SPR_NEWGRFS_BASE arctic tropic toyland 3 =
      ⟨[.LoadGrfFile GFT_BASE 0 FIRST_GRF_SLOT,
        .LoadGrfFile GFT_LOGOS 4793 (FIRST_GRF_SLOT + 1),
        .LoadGrfFileIndexed (GFT_ARCTIC + 3 - 1) toyland (FIRST_GRF_SLOT + 2),
        .LoadNewGRF GFT_EXTRA SPR_NEWGRFS_BASE (FIRST_GRF_SLOT + 3)], .returned ()⟩ ∧
    GraphicsSet.file_names[GFT_BASE]? = some "base" ∧
    GraphicsSet.file_names[GFT_LOGOS]? = some "logos" ∧
    GraphicsSet.file_names[GFT_ARCTIC + 1 - 1]? = some "arctic" ∧
    GraphicsSet.file_names[GFT_ARCTIC + 2 - 1]? = some "tropical" ∧
    GraphicsSet.file_names[GFT_ARCTIC + 3 - 1]? = some "toyland" ∧
    GraphicsSet.file_names[GFT_EXTRA]? = some "extra" := by
  refine ⟨?_, ?_, ?_, ?_, rfl, rfl, rfl, rfl, rfl, rfl⟩ <;>
    simp [LoadSpriteTables, LoadSpriteTables.step, hexec, LT_TEMPERATE,
      _landscape_spriteindexes] <;>
    omega

/-- Instance of C16 with FIRST_GRF_SLOT = 2 and the toyland landscape. -/
theorem LoadSpriteTables_loads_witness :
    LoadSpriteTables (fun _ => .returned ()) 2 4896 [10, 12, 65535] [20, 20, 65535]
        [30, 31, 65535] 3 =
      ⟨[.LoadGrfFile 0 0 2, .LoadGrfFile 1 4793 3, .LoadGrfFileIndexed 4 [30, 31, 65535] 4,
        .LoadNewGRF 5 4896 5], .returned ()⟩ :=
  (LoadSpriteTables_loads (fun _ => .returned ()) 2 4896 [10, 12, 65535] [20, 20, 65535]
    [30, 31, 65535] (fun _ => rfl) (by decide)).2.2.2.1

end GfxInit
